import Mathlib

/-!
# EcommerceApi: a shallow embedding of the backend handlers

The handlers of `backend/controllers` and `backend/middleware` are embedded as
pure functions over explicit stores (users, coupons, orders, the cache and the
payment processor).  Every handler returns the response it sends together with
the stores it leaves behind.

Conventions:
* an instant (a JavaScript `Date`) is its number of milliseconds since the epoch;
* an object identifier is the string it prints as;
* a JavaScript number is a finite double, see `F64`: arithmetic rounds the exact
  result to the nearest double, ties to even;
* whatever the runtime draws at random or reads from a clock (fresh identifiers,
  salts, coupon codes, the current instant) is an explicit argument.

Part I holds the definitions, Part II the theorems.
-/

namespace Ecommerce

/-! # Part I: definitions -/

/-- An object identifier, as the string it prints as. -/
abbrev ObjectId := String

/-- An instant: milliseconds since the epoch. -/
abbrev Instant := Int

/-! ## JavaScript numbers -/

/-- A finite double, as the pair of its integer significand and binary
exponent: the value is `mant * 2 ^ expo`.  The operations below return the
normal form (`2 ^ 52 ≤ |mant| < 2 ^ 53`, or `expo = -1074` for subnormals, or
`0 * 2 ^ 0` for zero), so that equal values are equal pairs.  Infinities and
NaN are not represented: results are taken below `2 ^ 1024` in magnitude. -/
structure F64 where
  mant : Int
  expo : Int
  deriving DecidableEq, Repr

namespace F64

/-- The rational value of a double. -/
def toRat (x : F64) : ℚ := (x.mant : ℚ) * (2 : ℚ) ^ x.expo

/-- The double `0`. -/
def zero : F64 := ⟨0, 0⟩

/-- Number of binary digits of `n`, by halving at most `fuel` times. -/
def bitLenAux : Nat → Nat → Nat
  | 0, _ => 0
  | fuel + 1, n => if n = 0 then 0 else bitLenAux fuel (n / 2) + 1

/-- Number of binary digits of `n` (`0` for `0`). -/
def bitLen (n : Nat) : Nat := bitLenAux n n

/-- The natural number `n * 2 ^ k` for `k ≥ 0`, and `n` for `k < 0`. -/
def shiftUp (n : Nat) (k : Int) : Nat := n * 2 ^ k.toNat

/-- The double nearest to `(n / d) * 2 ^ s`, ties to even (IEEE 754 binary64,
round-to-nearest-even).  The exponent `t` is chosen so that the scaled quotient
has 53 significant bits (fewer in the subnormal range), the quotient is rounded
to an integer with ties to even, and a carry to `2 ^ 53` is renormalised. -/
def roundRatio (n : Int) (d : Nat) (s : Int) : F64 :=
  if n = 0 ∨ d = 0 then zero else
    let a := n.natAbs
    let t0 : Int := (bitLen a : Int) - (bitLen d : Int) - 52
    let t1 : Int := if 2 ^ 52 * shiftUp d t0 ≤ shiftUp a (-t0) then t0 else t0 - 1
    let t : Int := max t1 (-1074 - s)
    let num := shiftUp a (-t)
    let den := shiftUp d t
    let q := num / den
    let r := num % den
    let m := if 2 * r < den then q else if den < 2 * r then q + 1
      else if q % 2 = 0 then q else q + 1
    if m = 0 then zero
    else if m = 2 ^ 53 then ⟨n.sign * 2 ^ 52, t + s + 1⟩
    else ⟨n.sign * m, t + s⟩

/-- The double of an integer literal. -/
def ofInt (k : Int) : F64 := roundRatio k 1 0

/-- The double a decimal literal `n / d` denotes, for instance `0.07` is
`ofDecimal 7 100`. -/
def ofDecimal (n : Int) (d : Nat) : F64 := roundRatio n d 0

/-- JavaScript `x * y`. -/
def mul (x y : F64) : F64 := roundRatio (x.mant * y.mant) 1 (x.expo + y.expo)

/-- JavaScript `x + y`. -/
def add (x y : F64) : F64 :=
  let e := min x.expo y.expo
  roundRatio (x.mant * 2 ^ (x.expo - e).toNat + y.mant * 2 ^ (y.expo - e).toNat) 1 e

/-- JavaScript `x - y`. -/
def sub (x y : F64) : F64 :=
  let e := min x.expo y.expo
  roundRatio (x.mant * 2 ^ (x.expo - e).toNat - y.mant * 2 ^ (y.expo - e).toNat) 1 e

/-- JavaScript `x / y` for `y ≠ 0` (the handlers only divide by the literal
`100`). -/
def div (x y : F64) : F64 :=
  roundRatio (y.mant.sign * x.mant) y.mant.natAbs (x.expo - y.expo)

/-- `Math.round(x)`: the integer `⌊x + 1/2⌋`, computed exactly. -/
def mathRound (x : F64) : F64 :=
  if 0 ≤ x.expo then x
  else ofInt ((2 * x.mant + 2 ^ (-x.expo).toNat) / 2 ^ (1 - x.expo).toNat)

/-- JavaScript `x >= y`. -/
def ge (x y : F64) : Bool :=
  let e := min x.expo y.expo
  decide (y.mant * 2 ^ (y.expo - e).toNat ≤ x.mant * 2 ^ (x.expo - e).toNat)

/-- The double has an integer value. -/
def isInteger (x : F64) : Bool :=
  decide (0 ≤ x.expo) || decide (x.mant % 2 ^ (-x.expo).toNat = 0)

end F64

/-- The value of a JavaScript number. -/
abbrev JSNumber := F64

/-- JavaScript `x || 0` on a possibly missing number: a missing or zero
operand gives `0`. -/
def jsOrZero (x : Option JSNumber) : JSNumber :=
  match x with
  | none => F64.zero
  | some v => if v = F64.zero then F64.zero else v

/-! ## Signed tokens (jsonwebtoken) -/

/-- A signed token, symbolically: the `userId` claim of its payload (absent
when the payload has none), the secret it was signed with, and the `iat` and
`exp` claims in seconds. -/
structure Jwt where
  userId : Option String
  secret : String
  iat : Int
  exp : Option Int
  deriving DecidableEq, Repr

/-- A cookie value: any string that is not a token, or a signed token. -/
inductive Token where
  | garbage (raw : String)
  | jwt (j : Jwt)
  deriving DecidableEq, Repr

/-- `jwt.sign({ userId }, secret, { expiresIn })` at instant `now`; `ttl` is
`expiresIn` in seconds, `none` when the option is not passed. -/
def jwtSign (userId : ObjectId) (secret : String) (now : Instant) (ttl : Option Int) : Token :=
  .jwt { userId := some userId, secret := secret, iat := now / 1000,
         exp := ttl.map (fun s => now / 1000 + s) }

/-- What `jwt.verify` throws. -/
inductive VerifyError where
  | jsonWebTokenError
  | tokenExpiredError
  deriving DecidableEq, Repr

/-- `jwt.verify(token, secret)` at instant `now`: the payload when the token is
a token signed with `secret` whose `exp`, if any, is after the clock. -/
def jwtVerify (token : Token) (secret : String) (now : Instant) : Except VerifyError Jwt :=
  match token with
  | .garbage _ => .error .jsonWebTokenError
  | .jwt j =>
    if j.secret ≠ secret then .error .jsonWebTokenError
    else match j.exp with
      | some e => if now / 1000 ≥ e then .error .tokenExpiredError else .ok j
      | none => .ok j

/-- The `exp` claim of the token, if any, is after the clock at `now`. -/
def Jwt.notExpiredAt (j : Jwt) (now : Instant) : Prop :=
  match j.exp with
  | some e => now / 1000 < e
  | none => True

/-- The cookie as JavaScript truthiness sees it: an absent cookie and the empty
string are both falsy. -/
def truthyCookie (cookie : Option Token) : Option Token :=
  match cookie with
  | some (.garbage "") => none
  | c => c

/-! ## Products (product.model.js) -/

/-- A product record. -/
structure Product where
  _id : ObjectId
  name : String
  description : String
  price : JSNumber
  image : String
  category : String
  isfeatured : Bool
  deriving DecidableEq, Repr

/-- An element of `cartItems`: its own identifier, the product it refers to
and a quantity. -/
structure CartItem where
  id : ObjectId
  products : Option ObjectId
  quantity : JSNumber
  deriving DecidableEq, Repr

/-! ## The cache (redis) -/

/-- A cached value: the store holds strings, here a token, the text
`JSON.stringify` makes of a list of products (which `JSON.parse` reads back as
that list), or other text. -/
inductive CacheValue where
  | token (t : Token)
  | text (s : String)
  | json (products : List Product)
  deriving DecidableEq, Repr

/-- A cache record: key, value, the `EX` argument it was set with (a number of
seconds) and the instant it was set at. -/
structure CacheEntry where
  key : String
  value : CacheValue
  ex : Option Nat
  setAt : Instant
  deriving DecidableEq, Repr

/-- The cache contents. -/
abbrev Cache := List CacheEntry

/-- The record has not expired at `now`. -/
def CacheEntry.live (e : CacheEntry) (now : Instant) : Bool :=
  match e.ex with
  | none => true
  | some s => decide (now < e.setAt + (s : Int) * 1000)

/-- `redis.set(key, value, "EX", ex)`: the record replaces any record of that
key. -/
def Cache.set (c : Cache) (key : String) (value : CacheValue) (ex : Option Nat)
    (now : Instant) : Cache :=
  { key := key, value := value, ex := ex, setAt := now } :: c.filter (fun e => e.key != key)

/-- `redis.del(key)`. -/
def Cache.del (c : Cache) (key : String) : Cache :=
  c.filter (fun e => e.key != key)

/-- `redis.get(key)` at instant `now`. -/
def Cache.get (c : Cache) (now : Instant) (key : String) : Option CacheValue :=
  (c.find? (fun e => e.key == key && e.live now)).map (fun e => e.value)

/-- The cache key of the refresh token of a user. -/
def refreshKey (userId : ObjectId) : String := "refresh_token:" ++ userId

/-! ## Responses -/

/-- The JSON bodies the embedded handlers send. -/
inductive Body where
  /-- `{ message }` -/
  | message (m : String)
  /-- `{ message, error }` -/
  | messageError (m : String) (e : String)
  /-- `{ status: "valid", message, discount }` -/
  | couponValid (m : String) (discount : Option JSNumber)
  /-- `{ _id, name, email, role }` -/
  | userDetails (id : ObjectId) (name : String) (email : String) (role : String)
  /-- `{ id, totalAmount }` -/
  | checkoutSession (id : String) (totalAmount : JSNumber)
  /-- `{ success: true, message, orderId }` -/
  | orderCreated (m : String) (orderId : ObjectId)
  /-- A product document. -/
  | product (p : Product)
  /-- An array of products. -/
  | products (ps : List Product)
  /-- An array of cart items. -/
  | cartItems (items : List CartItem)
  deriving DecidableEq, Repr

/-- A cookie set on the response by `res.cookie(name, value, { maxAge })`. -/
structure SetCookie where
  name : String
  value : Token
  maxAge : Nat
  deriving DecidableEq, Repr

/-- An HTTP response: status code, JSON body, the cookies it sets and the
cookies it clears. -/
structure Response where
  status : Nat
  body : Body
  cookies : List SetCookie := []
  cleared : List String := []
  deriving DecidableEq, Repr

/-- What the libraries throw; `message` renders the `error.message` a handler
puts in its 500 body (the library wording is not part of this repository, the
texts are labels). -/
inductive Thrown where
  | validation (path : String)
  | duplicateKey (path : String)
  | castError (path : String)
  | processor (m : String)
  | syntaxError
  | typeError (m : String)
  | invalidProductId (id : Option String)
  deriving DecidableEq, Repr

/-- The `error.message` of a thrown error. -/
def Thrown.message : Thrown → String
  | .validation path => "Validation failed: " ++ path
  | .duplicateKey path => "E11000 duplicate key error: " ++ path
  | .castError path => "Cast to ObjectId failed: " ++ path
  | .processor m => m
  | .syntaxError => "Unexpected token in JSON"
  | .typeError m => m
  | .invalidProductId id => "Invalid product ID" ++ id.getD "undefined"

/-! ## Users (user.model.js) -/

/-- A user record; `password` holds the hash the pre-save hook stored. -/
structure User where
  _id : ObjectId
  name : String
  email : String
  password : String
  cartItems : List CartItem
  role : String
  deriving DecidableEq, Repr

/-- A user record as `select("-password")` returns it. -/
structure SessionUser where
  _id : ObjectId
  name : String
  email : String
  cartItems : List CartItem
  role : String
  deriving DecidableEq, Repr

/-- Drop the password of a user record. -/
def User.withoutPassword (u : User) : SessionUser :=
  { _id := u._id, name := u.name, email := u.email, cartItems := u.cartItems, role := u.role }

/-- What the handlers take from their environment and libraries: the two
signing secrets, bcrypt (`bcryptHash password salt`, `bcryptCompare password
hash`), the setters the user schema puts on `email` (`trim`, `lowercase`), which
mongoose applies to stored values and to query values alike, and
`mongoose.Types.ObjectId.isValid`. -/
structure Deps where
  accessSecret : String
  refreshSecret : String
  bcryptHash : String → String → String
  bcryptCompare : String → String → Bool
  emailSetter : String → String
  objectIdIsValid : String → Bool

/-- The assumption on bcrypt: `compare` accepts the password a hash was made
from, whatever the salt. -/
def Deps.BcryptSound (d : Deps) : Prop :=
  ∀ password salt, d.bcryptCompare password (d.bcryptHash password salt) = true

/-- `User.findOne({ email })`: the first user whose stored email is the query
value after the schema setters. -/
def User.findOneByEmail (d : Deps) (users : List User) (email : String) : Option User :=
  users.find? (fun u => u.email == d.emailSetter email)

/-- `User.findById(id)`: `undefined` finds nothing, a string that is not an
object identifier throws a cast error, otherwise the user of that identifier. -/
def User.findById (d : Deps) (users : List User) (id : Option String) :
    Except Thrown (Option User) :=
  match id with
  | none => .ok none
  | some i =>
    if d.objectIdIsValid i then .ok (users.find? (fun u => u._id == i))
    else .error (.castError "_id")

/-- `User.create({ name, email, password })`: the three paths are required (an
empty string fails `required`; `min` is not a string validator and checks
nothing), the pre-save hook hashes the password with a fresh salt, the role
defaults to "customer", and the unique index on `email` rejects a duplicate. -/
def User.create (d : Deps) (users : List User) (newId : ObjectId) (salt : String)
    (name email password : String) : Except Thrown (User × List User) :=
  if name = "" then .error (.validation "name")
  else if d.emailSetter email = "" then .error (.validation "email")
  else if password = "" then .error (.validation "password")
  else if users.any (fun u => u.email == d.emailSetter email) then
    .error (.duplicateKey "email")
  else
    let user : User :=
      { _id := newId, name := name, email := d.emailSetter email,
        password := d.bcryptHash password salt, cartItems := [], role := "customer" }
    .ok (user, users ++ [user])

/-! ## Coupons -/

/-- Modelled from the spec: the coupon record (`models/coupon.model.js` is not
among the sources).  The fields are the ones the controllers read and write:
a code, a percentage, an expiration instant, an active flag and the owning
user. -/
structure Coupon where
  code : String
  discountPercentage : JSNumber
  expirationDate : Instant
  isActive : Bool
  userId : ObjectId
  deriving DecidableEq, Repr

/-- `Coupon.findOne({ code, userId, isActive: true })`: the first coupon of the
collection matching the three conditions. -/
def Coupon.findOneActive (coupons : List Coupon) (code : String) (userId : ObjectId) :
    Option Coupon :=
  coupons.find? (fun c => c.code == code && c.userId == userId && c.isActive == true)

/-- `Coupon.findOne({ userId })`. -/
def Coupon.findOneByUser (coupons : List Coupon) (userId : ObjectId) : Option Coupon :=
  coupons.find? (fun c => c.userId == userId)

/-- `Coupon.findOneAndUpdate({ code, userId }, { isActive: false })`: the first
coupon matching both conditions is made inactive.  A `code` of `undefined`
(`none`) matches only records without a code, and every coupon has one. -/
def Coupon.deactivateFirst (coupons : List Coupon) (code : Option String) (userId : String) :
    List Coupon :=
  match coupons with
  | [] => []
  | c :: rest =>
    if code = some c.code ∧ c.userId = userId then { c with isActive := false } :: rest
    else c :: Coupon.deactivateFirst rest code userId

/-! ## Orders (order.model.js) -/

/-- A line of an order. -/
structure OrderItem where
  product : ObjectId
  quantity : JSNumber
  price : JSNumber
  deriving DecidableEq, Repr

/-- An order record; `createdAt` is the timestamp the schema adds. -/
structure Order where
  _id : ObjectId
  user : ObjectId
  products : List OrderItem
  totalAmount : JSNumber
  stripeSessionId : String
  createdAt : Instant
  deriving DecidableEq, Repr

/-- `Order.findOne({ stripeSessionId })`. -/
def Order.findOneBySession (orders : List Order) (sessionId : String) : Option Order :=
  orders.find? (fun o => o.stripeSessionId == sessionId)

/-- The number of orders recorded for a session handle. -/
def ordersOfSession (orders : List Order) (sessionId : String) : Nat :=
  (orders.filter (fun o => o.stripeSessionId == sessionId)).length

/-! ## The payment processor -/

/-- A line item of the decoded `metadata.products`: every property may be
missing. -/
structure MetaProduct where
  id : Option String
  _id : Option String
  quantity : Option JSNumber
  price : Option JSNumber
  deriving DecidableEq, Repr

/-- The metadata of a checkout session.  `products` is the decoded JSON text,
`none` when the text does not parse.  `coupon` and `couponCode` are the values
under the keys of those names; an unset key is `none`. -/
structure SessionMetadata where
  userId : String
  coupon : Option String
  couponCode : Option String
  products : Option (List MetaProduct)
  deriving DecidableEq, Repr

/-- A line item sent to the processor. -/
structure LineItem where
  name : String
  image : String
  unit_amount : JSNumber
  quantity : JSNumber
  deriving DecidableEq, Repr

/-- A checkout session as the processor holds it. -/
structure StripeSession where
  id : String
  payment_status : String
  amount_total : Option JSNumber
  metadata : SessionMetadata
  line_items : List LineItem
  discounts : List String
  deriving DecidableEq, Repr

/-- A coupon created at the processor by `stripe.coupons.create`. -/
structure StripeCoupon where
  id : String
  percent_off : JSNumber
  deriving DecidableEq, Repr

/-! ## The stores -/

/-- Everything the handlers read and write: the collections, the cache, and
the sessions and coupons held by the payment processor. -/
structure World where
  users : List User
  coupons : List Coupon
  orders : List Order
  cache : Cache
  stripeSessions : List StripeSession
  stripeCoupons : List StripeCoupon
  products : List Product
  deriving DecidableEq, Repr

/-! ## Authentication (auth.controller.js) -/

/-- `generateTokens(userId)` at instant `now`: the access token (secret
`ACCESS_TOKEN_SECRET`, `expiresIn: "15m"`) and the refresh token (secret
`REFRESH_TOKEN_SECRET`, `expiresIn: "7d"`). -/
def generateTokens (d : Deps) (userId : ObjectId) (now : Instant) : Token × Token :=
  (jwtSign userId d.accessSecret now (some (15 * 60)),
   jwtSign userId d.refreshSecret now (some (7 * 24 * 60 * 60)))

/-- `storeRefreshToken(userId, refreshToken)`:
`redis.set("refresh_token:" + userId, refreshToken, "EX", 7 * 24 * 60 * 60 * 1000)`. -/
def storeRefreshToken (cache : Cache) (userId : ObjectId) (refreshToken : Token)
    (now : Instant) : Cache :=
  cache.set (refreshKey userId) (.token refreshToken) (some (7 * 24 * 60 * 60 * 1000)) now

/-- `setCookie(res, accessToken, refreshToken)`: the two cookies with their
`maxAge` in milliseconds. -/
def setCookie (accessToken refreshToken : Token) : List SetCookie :=
  [{ name := "accessToken", value := accessToken, maxAge := 15 * 60 * 1000 },
   { name := "refreshToken", value := refreshToken, maxAge := 7 * 24 * 60 * 60 * 1000 }]

/-- `signup` (auth.controller.js, lines 51-87).  `newId` and `salt` are the
identifier and the salt drawn for the new record. -/
def signup (d : Deps) (w : World) (now : Instant) (newId : ObjectId) (salt : String)
    (name email password : String) : Response × World :=
  match User.findOneByEmail d w.users email with
  | some _ => ({ status := 400, body := .message "user already exist" }, w)
  | none =>
    match User.create d w.users newId salt name email password with
    | .error e => ({ status := 500, body := .message e.message }, w)
    | .ok (user, users) =>
      let tokens := generateTokens d user._id now
      ({ status := 200, body := .userDetails user._id user.name user.email user.role,
         cookies := setCookie tokens.1 tokens.2 },
       { w with users := users, cache := storeRefreshToken w.cache user._id tokens.2 now })

/-- `login` (auth.controller.js, lines 90-122). -/
def login (d : Deps) (w : World) (now : Instant) (email password : String) :
    Response × World :=
  match User.findOneByEmail d w.users email with
  | some user =>
    if d.bcryptCompare password user.password then
      let tokens := generateTokens d user._id now
      ({ status := 200, body := .userDetails user._id user.name user.email user.role,
         cookies := setCookie tokens.1 tokens.2 },
       { w with cache := storeRefreshToken w.cache user._id tokens.2 now })
    else
      ({ status := 400, body := .message "Invalid email or password" }, w)
  | none => ({ status := 400, body := .message "Invalid email or password" }, w)

/-- `logout` (auth.controller.js, lines 125-156): with a refresh token cookie
the token is verified, its record deleted from the cache; both cookies are
cleared. -/
def logout (d : Deps) (w : World) (now : Instant) (cookie : Option Token) :
    Response × World :=
  let done : Response :=
    { status := 200, body := .message "Logout successful",
      cleared := ["accessToken", "refreshToken"] }
  match truthyCookie cookie with
  | none => (done, w)
  | some refreshToken =>
    match jwtVerify refreshToken d.refreshSecret now with
    | .error _ => ({ status := 401, body := .message "Invalid refresh token" }, w)
    | .ok decoded =>
      match decoded.userId with
      | none => ({ status := 401, body := .message "Invalid token payload" }, w)
      | some userId =>
        if userId = "" then ({ status := 401, body := .message "Invalid token payload" }, w)
        else (done, { w with cache := w.cache.del (refreshKey userId) })

/-- `refreshToken` (auth.controller.js, lines 159-197): the presented token is
verified, compared with the cached record of its user, and a new access token
is signed without `expiresIn`.  A failed verification leaves `decoded`
undefined, and reading `decoded.userId` throws. -/
def refreshToken (d : Deps) (w : World) (now : Instant) (cookie : Option Token) :
    Response × World :=
  match truthyCookie cookie with
  | none => ({ status := 400, body := .message "No refresh token provided" }, w)
  | some presented =>
    match jwtVerify presented d.refreshSecret now with
    | .error _ =>
      ({ status := 500,
         body := .messageError "Server error"
           (Thrown.typeError "Cannot read properties of undefined").message }, w)
    | .ok decoded =>
      let storedToken := w.cache.get now (refreshKey (decoded.userId.getD "undefined"))
      if storedToken ≠ some (.token presented) then
        ({ status := 400, body := .message "Invalid refresh token" }, w)
      else
        let accessToken : Token :=
          .jwt { userId := decoded.userId, secret := d.accessSecret, iat := now / 1000,
                 exp := none }
        ({ status := 200, body := .message "Refresh token successful",
           cookies := [{ name := "accessToken", value := accessToken, maxAge := 15 * 60 * 1000 }] },
         w)

/-- The response of a logout that went through. -/
def logoutDone : Response :=
  { status := 200, body := .message "Logout successful",
    cleared := ["accessToken", "refreshToken"] }

/-- The request carries no refresh token cookie, or one that verifies against
the refresh secret at `now` and names a user: the requests `logout` does not
answer 401. -/
def logoutAccepts (d : Deps) (now : Instant) (cookie : Option Token) : Prop :=
  truthyCookie cookie = none ∨
    ∃ j uid, cookie = some (.jwt j) ∧ j.secret = d.refreshSecret ∧ j.notExpiredAt now ∧
      j.userId = some uid ∧ uid ≠ ""

/-! ## The session middleware (auth.middleware.js) -/

/-- What a middleware does: it calls `next()` with `req.user` set, or it sends
a response and the chain stops. -/
inductive Outcome where
  | next (user : SessionUser)
  | respond (r : Response)
  deriving DecidableEq, Repr

/-- `protectRoute` (auth.middleware.js, lines 5-44).  A failed `jwt.verify` is
caught and logged, `decoded` stays undefined and reading `decoded.userId`
throws a `TypeError`; the inner handler rethrows whatever is not a
`TokenExpiredError` and the outer one answers 401 "Invalid access token".  A
cast error of `findById` takes the same way. -/
def protectRoute (d : Deps) (users : List User) (now : Instant) (cookie : Option Token) :
    Outcome :=
  match truthyCookie cookie with
  | none => .respond { status := 401, body := .message "Unauthorized - No access token" }
  | some refreshToken =>
    match jwtVerify refreshToken d.refreshSecret now with
    | .error _ =>
      .respond { status := 401, body := .message "Unauthorized - Invalid access token" }
    | .ok decoded =>
      match User.findById d users decoded.userId with
      | .error _ =>
        .respond { status := 401, body := .message "Unauthorized - Invalid access token" }
      | .ok none =>
        .respond { status := 401, body := .message "Unauthorized - User not found" }
      | .ok (some user) => .next user.withoutPassword

/-! ## Coupon validation (coupon.controller.js) -/

/-- `validateCoupon` (coupon.controller.js, lines 24-61).

The coupon is looked up by code, owner and active flag; a missing coupon is a
404.  The found coupon is then tested with `coupon.expirationDate > new Date()`:
when that holds the handler answers 404 "Coupon expired" (the assignment
`coupon.isActive = false` is never saved, so the collection is untouched),
otherwise it answers 200 with status "valid".  `coupon.discount` reads a field
no writer of this repository sets, hence `none`. -/
def validateCoupon (coupons : List Coupon) (now : Instant) (userId : ObjectId)
    (code : String) : Response :=
  match Coupon.findOneActive coupons code userId with
  | none => { status := 404, body := .message "Coupon not found" }
  | some coupon =>
    if coupon.expirationDate > now then
      { status := 404, body := .message "Coupon expired" }
    else
      { status := 200, body := .couponValid "Coupon is valid" none }

/-- The response reports the coupon as valid. -/
def Response.reportsValid (r : Response) : Prop :=
  r.status = 200 ∧ ∃ d, r.body = .couponValid "Coupon is valid" d

/-! ## Checkout (payment.controller.js) -/

/-- An element of `req.body.products`. -/
structure CartProduct where
  _id : Option String
  name : String
  image : String
  price : JSNumber
  quantity : JSNumber
  deriving DecidableEq, Repr

/-- A string as JavaScript truthiness sees it: `undefined`, `null` and the
empty string are falsy. -/
def truthyString (s : Option String) : Option String :=
  match s with
  | some "" => none
  | c => c

/-- The amount of a product in cents as the handler computes it:
`product.price * 100`. -/
def unitAmount (product : CartProduct) : JSNumber :=
  F64.mul product.price (F64.ofInt 100)

/-- The line item the handler builds for a product; `product.quantity || 1`. -/
def lineItem (product : CartProduct) : LineItem :=
  { name := product.name, image := product.image, unit_amount := unitAmount product,
    quantity := if product.quantity = F64.zero then F64.ofInt 1 else product.quantity }

/-- The value of `totalAmount` after the `products.map` of lines 18-35: starting
from `0`, every product adds `product.quantity * amount`. -/
def cartTotal (products : List CartProduct) : JSNumber :=
  products.foldl
    (fun totalAmount product => F64.add totalAmount (F64.mul product.quantity (unitAmount product)))
    F64.zero

/-- The value of `totalAmount` after lines 38-54: with a coupon,
`totalAmount -= Math.round(totalAmount * (coupon.discountPercentage / 100))`. -/
def discountedTotal (totalAmount : JSNumber) (coupon : Option Coupon) : JSNumber :=
  match coupon with
  | none => totalAmount
  | some c =>
    F64.sub totalAmount
      (F64.mathRound (F64.mul totalAmount (F64.div c.discountPercentage (F64.ofInt 100))))

/-- The coupon the handler applies: none without a truthy `couponCode`,
otherwise the active coupon of that code owned by the user, if any. -/
def checkoutCoupon (coupons : List Coupon) (userId : ObjectId) (couponCode : Option String) :
    Option Coupon :=
  match truthyString couponCode with
  | none => none
  | some code => Coupon.findOneActive coupons code userId

/-- The total `createCheckoutSession` computes for a cart and a coupon code. -/
def checkoutTotal (coupons : List Coupon) (userId : ObjectId) (products : List CartProduct)
    (couponCode : Option String) : JSNumber :=
  discountedTotal (cartTotal products) (checkoutCoupon coupons userId couponCode)

/-- What the payment processor answers to the two calls of the handler:
`stripe.coupons.create` returns the identifier of the new coupon or throws, and
`stripe.checkout.sessions.create` returns the identifier of the new session and
the `amount_total` the processor computed, or throws. -/
structure ProcessorReplies where
  coupon : Except Thrown String
  session : Except Thrown (String × Option JSNumber)

/-- `createNewCoupon(userId)`: the reward coupon, `code` being the random code
drawn for it.  Modelled from the spec: the schema default of `isActive`, which
the call does not set, is taken to be `true`. -/
def createNewCoupon (coupons : List Coupon) (userId : ObjectId) (code : String)
    (now : Instant) : List Coupon :=
  coupons ++ [{ code := code, discountPercentage := F64.ofInt 10,
                expirationDate := now + 30 * 24 * 60 * 60 * 1000,
                isActive := true, userId := userId }]

/-- `createCheckoutSession` (payment.controller.js, lines 6-107).  `products` is
`none` when `req.body.products` is not an array; `newCode` is the random code
of a reward coupon. -/
def createCheckoutSession (w : World) (now : Instant) (user : SessionUser)
    (products : Option (List CartProduct)) (couponCode : Option String)
    (replies : ProcessorReplies) (newCode : String) : Response × World :=
  match products with
  | none => ({ status := 400, body := .message "Invalid products" }, w)
  | some [] => ({ status := 400, body := .message "Invalid products" }, w)
  | some (p :: ps) =>
    let products := p :: ps
    let lineItems := products.map lineItem
    let coupon := checkoutCoupon w.coupons user._id couponCode
    let totalAmount := discountedTotal (cartTotal products) coupon
    let failed (e : Thrown) : Response :=
      { status := 500, body := .messageError "Error processing checkout" e.message }
    let discount : Except Thrown (List String × List StripeCoupon) :=
      match coupon with
      | none => .ok ([], w.stripeCoupons)
      | some c =>
        match replies.coupon with
        | .error e => .error e
        | .ok id => .ok ([id], w.stripeCoupons ++ [{ id := id, percent_off := c.discountPercentage }])
    match discount with
    | .error e => (failed e, w)
    | .ok (discounts, stripeCoupons) =>
      match replies.session with
      | .error e => (failed e, { w with stripeCoupons := stripeCoupons })
      | .ok (sessionId, amountTotal) =>
        let session : StripeSession :=
          { id := sessionId, payment_status := "unpaid", amount_total := amountTotal,
            metadata :=
              { userId := user._id, coupon := truthyString couponCode, couponCode := none,
                products := some (products.map (fun p =>
                  { id := p._id, _id := none, quantity := some p.quantity,
                    price := some p.price })) },
            line_items := lineItems, discounts := discounts }
        let coupons :=
          if F64.ge totalAmount (F64.ofInt 20000) then
            match Coupon.findOneByUser w.coupons user._id with
            | none => createNewCoupon w.coupons user._id newCode now
            | some _ => w.coupons
          else w.coupons
        ({ status := 200, body := .checkoutSession sessionId (F64.div totalAmount (F64.ofInt 100)) },
         { w with coupons := coupons, stripeCoupons := stripeCoupons,
                  stripeSessions := w.stripeSessions ++ [session] })

/-- The reward coupon `createNewCoupon` mints for a user at `now` with the
random code `code`. -/
def rewardCoupon (userId : ObjectId) (code : String) (now : Instant) : Coupon :=
  { code := code, discountPercentage := F64.ofInt 10,
    expirationDate := now + 30 * 24 * 60 * 60 * 1000, isActive := true, userId := userId }

/-- A line of an order before validation: `quantity` and `price` as decoded. -/
structure OrderItemDraft where
  product : ObjectId
  quantity : Option JSNumber
  price : Option JSNumber
  deriving DecidableEq, Repr

/-- The callback of `products.map` in `checkoutSuccess` (lines 146-163):
`product.id || product._id` must be a valid object identifier, otherwise the
callback throws. -/
def orderItemDraft (d : Deps) (product : MetaProduct) : Except Thrown OrderItemDraft :=
  let productId :=
    match truthyString product.id with
    | some i => some i
    | none => product._id
  match productId with
  | none => .error (.invalidProductId none)
  | some i =>
    if d.objectIdIsValid i then
      .ok { product := i, quantity := product.quantity, price := product.price }
    else .error (.invalidProductId (some i))

/-- `products.map(...)` with a throwing callback: the first throw aborts. -/
def orderItemDrafts (d : Deps) : List MetaProduct → Except Thrown (List OrderItemDraft)
  | [] => .ok []
  | product :: rest =>
    match orderItemDraft d product with
    | .error e => .error e
    | .ok item =>
      match orderItemDrafts d rest with
      | .error e => .error e
      | .ok items => .ok (item :: items)

/-- Validation of an order line by the schema: `price` is required and at
least `0`, `quantity` defaults to `1`. -/
def validateOrderItem (item : OrderItemDraft) : Except Thrown OrderItem :=
  match item.price with
  | none => .error (.validation "products.price")
  | some price =>
    if F64.ge price F64.zero then
      .ok { product := item.product, quantity := item.quantity.getD (F64.ofInt 1),
            price := price }
    else .error (.validation "products.price")

/-- Validation of all lines. -/
def validateOrderItems : List OrderItemDraft → Except Thrown (List OrderItem)
  | [] => .ok []
  | item :: rest =>
    match validateOrderItem item with
    | .error e => .error e
    | .ok i =>
      match validateOrderItems rest with
      | .error e => .error e
      | .ok is => .ok (i :: is)

/-- `Order.create({ user, products, totalAmount, stripeSessionId })`: `user`
must cast to an object identifier, the lines and the total must pass the
schema, and the unique index on `stripeSessionId` rejects a duplicate. -/
def Order.create (d : Deps) (orders : List Order) (newId : ObjectId) (now : Instant)
    (user : String) (products : List OrderItemDraft) (totalAmount : JSNumber)
    (sessionId : String) : Except Thrown (Order × List Order) :=
  if ¬ d.objectIdIsValid user then .error (.validation "user")
  else
    match validateOrderItems products with
    | .error e => .error e
    | .ok items =>
      if ¬ F64.ge totalAmount F64.zero then .error (.validation "totalAmount")
      else if orders.any (fun o => o.stripeSessionId == sessionId) then
        .error (.duplicateKey "stripeSessionId")
      else
        let order : Order :=
          { _id := newId, user := user, products := items, totalAmount := totalAmount,
            stripeSessionId := sessionId, createdAt := now }
        .ok (order, orders ++ [order])

/-- `checkoutSuccess` (payment.controller.js, lines 109-183).  `newId` is the
identifier drawn for a new order.  The coupon update of lines 116-131 is kept
whatever follows; every throw is answered 500. -/
def checkoutSuccess (d : Deps) (w : World) (now : Instant) (newId : ObjectId)
    (sessionId : String) : Response × World :=
  let failed (e : Thrown) : Response :=
    { status := 500, body := .messageError "Error processing successful checkout" e.message }
  match w.stripeSessions.find? (fun s => s.id == sessionId) with
  | none => (failed (.processor "No such checkout.session"), w)
  | some session =>
    let coupons :=
      if session.payment_status = "paid" ∧ (truthyString session.metadata.coupon).isSome then
        Coupon.deactivateFirst w.coupons session.metadata.couponCode session.metadata.userId
      else w.coupons
    let w1 : World := { w with coupons := coupons }
    match session.metadata.products with
    | none => (failed .syntaxError, w1)
    | some products =>
      match Order.findOneBySession w1.orders sessionId with
      | some _ => ({ status := 400, body := .message "Order already exists" }, w1)
      | none =>
        match orderItemDrafts d products with
        | .error e => (failed e, w1)
        | .ok items =>
          match Order.create d w1.orders newId now session.metadata.userId items
              (F64.div (session.amount_total.getD F64.zero) (F64.ofInt 100)) sessionId with
          | .error e => (failed e, w1)
          | .ok (newOrder, orders) =>
            ({ status := 200,
               body := .orderCreated
                 "Payment successful, order created, and coupon deactivated if used."
                 newOrder._id },
             { w1 with orders := orders })

/-! ## Analytics (analytics.controller.js) -/

/-- Milliseconds in a day. -/
def msPerDay : Int := 24 * 60 * 60 * 1000

/-- The calendar day of an instant in UTC, as the number of whole days since
1970-01-01.  It stands for the text `YYYY-MM-DD` that both
`toISOString().split("T")[0]` and `$dateToString` with format `%Y-%m-%d` print
for that day, the two being compared with `===`. -/
def utcDay (t : Instant) : Int := t / msPerDay

/-- A row of the aggregation: `_id` is the day, `sales` the number of orders
of that day and `revenue` the sum of their totals. -/
structure SalesRow where
  _id : Int
  sales : JSNumber
  revenue : JSNumber
  deriving DecidableEq, Repr

/-- An entry of the daily series. -/
structure DailySales where
  date : Int
  sales : JSNumber
  revenue : JSNumber
  deriving DecidableEq, Repr

/-- The `$group` and `$sort` stages, one order at a time: the order is counted
in the row of its day, the rows being kept in ascending order of `_id`. -/
def addToRows (rows : List SalesRow) (day : Int) (totalAmount : JSNumber) : List SalesRow :=
  match rows with
  | [] => [{ _id := day, sales := F64.ofInt 1, revenue := F64.add F64.zero totalAmount }]
  | r :: rest =>
    if day < r._id then
      { _id := day, sales := F64.ofInt 1, revenue := F64.add F64.zero totalAmount } :: r :: rest
    else if day = r._id then
      { r with sales := F64.add r.sales (F64.ofInt 1),
               revenue := F64.add r.revenue totalAmount } :: rest
    else r :: addToRows rest day totalAmount

/-- The aggregation pipeline of `getDailySalesData` (lines 53-70): the orders
created within `[startDate, endDate]`, grouped by day, sorted by day. -/
def aggregateDailySales (orders : List Order) (startDate endDate : Instant) : List SalesRow :=
  (orders.filter (fun o => decide (startDate ≤ o.createdAt) && decide (o.createdAt ≤ endDate))).foldl
    (fun rows o => addToRows rows (utcDay o.createdAt) o.totalAmount) []

/-- The time zone of the host, as the runtime sees it: the offset of local time
to UTC in milliseconds at an instant, and the offset it takes for a local time
when it turns that local time back into an instant. -/
structure TimeZone where
  offsetAtUtc : Instant → Int
  offsetAtLocal : Int → Int

/-- A zone whose local time keeps the same offset to UTC all year. -/
def fixedZone (offset : Int) : TimeZone :=
  { offsetAtUtc := fun _ => offset, offsetAtLocal := fun _ => offset }

/-- The zone of a host running in UTC. -/
def utcZone : TimeZone := fixedZone 0

/-- The zone keeps one offset to UTC. -/
def TimeZone.ConstantOffset (zone : TimeZone) : Prop :=
  ∃ offset, (∀ t, zone.offsetAtUtc t = offset) ∧ (∀ l, zone.offsetAtLocal l = offset)

/-- `currentDate.setDate(currentDate.getDate() + 1)` (line 114): the instant is
read as local time, the local date moves to the next day at the same time of
day, and the result is read back as an instant.  The step is 24 hours while
the offset does not change, and 23 or 25 hours across a change of offset. -/
def nextLocalDay (zone : TimeZone) (t : Instant) : Instant :=
  let localTime := t + zone.offsetAtUtc t + msPerDay
  localTime - zone.offsetAtLocal localTime

/-- The loop of `getDatesInRange` (lines 109-115) on a host in time zone `zone`,
`cur` being `currentDate` and `dates` the array so far: the day pushed is the
UTC day of `toISOString()`, the step is a day of local time.  The loop gives
`none` when it has not ended within `fuel` iterations. -/
def getDatesLoop (zone : TimeZone) : Nat → Instant → Instant → List Int → Option (List Int)
  | 0, _, _, _ => none
  | fuel + 1, cur, endDate, dates =>
    if cur ≤ endDate then
      getDatesLoop zone fuel (nextLocalDay zone cur) endDate (dates ++ [utcDay cur])
    else some dates

/-- `getDatesInRange(startDate, endDate)` (lines 103-120) on a host in time zone
`zone`.  The fuel is one iteration per hour of the range, enough whenever a
local day lasts an hour or more. -/
def getDatesInRange (zone : TimeZone) (startDate endDate : Instant) : Option (List Int) :=
  getDatesLoop zone (((endDate - startDate) / 3600000).toNat + 2) startDate endDate []

/-- The left join of lines 84-96: every date of the range with the sales and
revenue of the first row of that date, `0` when there is none. -/
def joinSales (dailySalesData : List SalesRow) (dates : List Int) : List DailySales :=
  dates.map (fun date =>
    let foundData := dailySalesData.find? (fun item => item._id == date)
    { date := date,
      sales := jsOrZero (foundData.map (fun r => r.sales)),
      revenue := jsOrZero (foundData.map (fun r => r.revenue)) })

/-- Lines 81-96 of `getDailySalesData`, for a given result of the
aggregation. -/
def dailySeries (zone : TimeZone) (dailySalesData : List SalesRow)
    (startDate endDate : Instant) : Option (List DailySales) :=
  (getDatesInRange zone startDate endDate).map (joinSales dailySalesData)

/-- `getDailySalesData(startDate, endDate)` (lines 45-100) over the order
collection, on a host in time zone `zone`. -/
def getDailySalesData (zone : TimeZone) (orders : List Order) (startDate endDate : Instant) :
    Option (List DailySales) :=
  dailySeries zone (aggregateDailySales orders startDate endDate) startDate endDate

/-! ## Reconciliation: what the claims speak of -/

/-- The product reference of a decoded line item, `product.id || product._id`. -/
def MetaProduct.productId (product : MetaProduct) : Option String :=
  match truthyString product.id with
  | some i => some i
  | none => product._id

/-- The product reference of a decoded line item is a well-formed object
identifier. -/
def MetaProduct.wellFormedRef (d : Deps) (product : MetaProduct) : Bool :=
  match product.productId with
  | some i => d.objectIdIsValid i
  | none => false

/-- The line an order keeps of a decoded line item: its product reference, its
quantity (`1` when the item has none, the schema default) and its price. -/
def MetaProduct.orderItem (product : MetaProduct) : OrderItem :=
  { product := product.productId.getD "",
    quantity := product.quantity.getD (F64.ofInt 1),
    price := product.price.getD F64.zero }

/-- The draft the map of `checkoutSuccess` makes of a decoded line item. -/
def MetaProduct.draft (product : MetaProduct) : OrderItemDraft :=
  { product := product.productId.getD "", quantity := product.quantity, price := product.price }

/-- The price of a decoded line item passes the order schema: it is present
and at least `0`. -/
def MetaProduct.priceAccepted (product : MetaProduct) : Bool :=
  match product.price with
  | some price => F64.ge price F64.zero
  | none => false

/-- The order schema accepts the record `checkoutSuccess` builds from a
session: the user reference casts to an object identifier, every price is
present and at least `0`, and so is the total. -/
def StripeSession.schemaAccepts (d : Deps) (session : StripeSession) : Bool :=
  d.objectIdIsValid session.metadata.userId &&
    (session.metadata.products.getD []).all MetaProduct.priceAccepted &&
    F64.ge (F64.div (session.amount_total.getD F64.zero) (F64.ofInt 100)) F64.zero

/-- The payment processor records that the customer paid a session. -/
def payAtProcessor (w : World) (sessionId : String) (amountTotal : JSNumber) : World :=
  { w with stripeSessions := w.stripeSessions.map (fun s =>
      if s.id = sessionId then
        { s with payment_status := "paid", amount_total := some amountTotal }
      else s) }

/-- The number of coupon records of a user. -/
def couponsOfUser (coupons : List Coupon) (userId : ObjectId) : Nat :=
  (coupons.filter (fun c => c.userId == userId)).length

/-! ## Featured products (product.controller.js) -/

/-- `Product.findById(id)`: a string that is not an object identifier throws a
cast error, otherwise the product of that identifier. -/
def Product.findById (d : Deps) (products : List Product) (id : String) :
    Except Thrown (Option Product) :=
  if d.objectIdIsValid id then .ok (products.find? (fun p => p._id == id))
  else .error (.castError "_id")

/-- Validation of a product document on `save()`: the paths `name`,
`description`, `image` and `category` are required, and an empty string fails
`required`. -/
def Product.valid (p : Product) : Bool :=
  p.name != "" && p.description != "" && p.image != "" && p.category != ""

/-- The collection after `product.save()` with the featured flag toggled: the
first record of that identifier has its flag negated. -/
def Product.toggleFirst (products : List Product) (id : ObjectId) : List Product :=
  match products with
  | [] => []
  | p :: rest =>
    if p._id = id then { p with isfeatured := !p.isfeatured } :: rest
    else p :: Product.toggleFirst rest id

/-- `Product.find({ isfeatured: true }).lean()`. -/
def Product.findFeatured (products : List Product) : List Product :=
  products.filter (fun p => p.isfeatured)

/-- `updateFeaturedProductsCache()` (lines 180-191): the featured products are
read and written to the cache under `featured_products`, without expiry. -/
def updateFeaturedProductsCache (products : List Product) (cache : Cache) (now : Instant) :
    Cache :=
  cache.set "featured_products" (.json (Product.findFeatured products)) none now

/-- `toggleFeaturedProduct` (product.controller.js, lines 153-177); `id` is
`req.params.id`. -/
def toggleFeaturedProduct (d : Deps) (w : World) (now : Instant) (id : String) :
    Response × World :=
  match Product.findById d w.products id with
  | .error e => ({ status := 500, body := .messageError "Server error" e.message }, w)
  | .ok none => ({ status := 404, body := .message "Product not found" }, w)
  | .ok (some product) =>
    let updatedProduct : Product := { product with isfeatured := !product.isfeatured }
    if updatedProduct.valid then
      let products := Product.toggleFirst w.products product._id
      ({ status := 200, body := .product updatedProduct },
       { w with products := products,
                cache := updateFeaturedProductsCache products w.cache now })
    else
      ({ status := 500,
         body := .messageError "Server error" (Thrown.validation "product").message }, w)

/-- `getFeaturedProducts` (product.controller.js, lines 25-48): a truthy cached
text is parsed and returned; otherwise the featured products are read from the
collection, cached and returned. -/
def getFeaturedProducts (w : World) (now : Instant) : Response × World :=
  let fromStore : Response × World :=
    ({ status := 200, body := .products (Product.findFeatured w.products) },
     { w with cache := updateFeaturedProductsCache w.products w.cache now })
  match w.cache.get now "featured_products" with
  | none => fromStore
  | some (.json products) => ({ status := 200, body := .products products }, w)
  | some (.text "") => fromStore
  | some _ =>
    ({ status := 500, body := .messageError "Server error" Thrown.syntaxError.message }, w)

/-! ## The cart (cart.controller.js) -/

/-- `user.save()` after the cart of the request user changed: the stored record
of that user takes the new cart. -/
def User.saveCart (users : List User) (userId : ObjectId) (cartItems : List CartItem) :
    List User :=
  users.map (fun u => if u._id = userId then { u with cartItems := cartItems } else u)

/-- `removeAllFromCart` (cart.controller.js, lines 54-75); `user` is `req.user`.
Without a truthy `productId` the handler assigns `user.cartItem = []`, a
property the schema does not have: `user.cartItems` is left as it is and
`save()` has nothing to write.  With a `productId` the items whose `id` is not
`productId` are kept and saved. -/
def removeAllFromCart (w : World) (user : SessionUser) (productId : Option String) :
    Response × World :=
  match truthyString productId with
  | none => ({ status := 200, body := .cartItems user.cartItems }, w)
  | some id =>
    let cartItems := user.cartItems.filter (fun item => item.id != id)
    ({ status := 200, body := .cartItems cartItems },
     { w with users := User.saveCart w.users user._id cartItems })

/-! ## Concrete values for the examples -/

/-- A character of a hexadecimal numeral. -/
def isHexChar (c : Char) : Bool :=
  c.isDigit || (decide ('a' ≤ c) && decide (c ≤ 'f')) || (decide ('A' ≤ c) && decide (c ≤ 'F'))

/-- An environment for the examples: two distinct secrets, a stand-in for
bcrypt that keeps the password as its hash, an email setter that changes
nothing (the example addresses are already trimmed and in lower case), and the
24 hexadecimal digits test for object identifiers. -/
def exampleDeps : Deps :=
  { accessSecret := "access-secret"
    refreshSecret := "refresh-secret"
    bcryptHash := fun password _ => password
    bcryptCompare := fun password hash => password == hash
    emailSetter := fun email => email
    objectIdIsValid := fun s => s.data.length == 24 && s.data.all isHexChar }

/-- The empty stores. -/
def emptyWorld : World :=
  { users := [], coupons := [], orders := [], cache := [], stripeSessions := [],
    stripeCoupons := [], products := [] }

/-- An object identifier for the example user. -/
def aliceId : ObjectId := "64b0c0ffee0000000000a11c"

/-- An object identifier for the example product. -/
def mugId : ObjectId := "64b0c0ffee00000000000123"

/-- The example user record, as signup stores it under `exampleDeps`. -/
def alice : User :=
  { _id := aliceId, name := "Alice", email := "alice@example.com", password := "correct horse",
    cartItems := [], role := "customer" }

/-- The coupon store at which `validateCoupon` accepts an expired coupon: the
coupon expired at instant 1000. -/
def expiredCouponStore : List Coupon :=
  [{ code := "GIFTabc123", discountPercentage := F64.ofInt 10, expirationDate := 1000,
     isActive := true, userId := aliceId }]

/-- The stores after Alice signed up at instant 0. -/
def worldAfterSignup : World :=
  (signup exampleDeps emptyWorld 0 aliceId "salt" "Alice" "alice@example.com" "correct horse").2

/-- The refresh token issued to Alice at instant 0. -/
def aliceRefreshToken : Token := (generateTokens exampleDeps aliceId 0).2

/-- The stores holding the record of Alice and nothing else. -/
def worldWithAlice : World := { emptyWorld with users := [alice] }

/-- A cart of one product priced 0.07, a whole number of cents. -/
def driftCart : List CartProduct :=
  [{ _id := some mugId, name := "Sticker", image := "sticker.png",
     price := F64.ofDecimal 7 100, quantity := F64.ofInt 1 }]

/-- The cart of the example of the spec: two products at 10.00 and one at
5.00. -/
def specCart : List CartProduct :=
  [{ _id := some mugId, name := "Mug", image := "mug.png",
     price := F64.ofDecimal 1000 100, quantity := F64.ofInt 2 },
   { _id := some mugId, name := "Coaster", image := "coaster.png",
     price := F64.ofDecimal 500 100, quantity := F64.ofInt 1 }]

/-- A coupon store with one active 10% coupon of Alice. -/
def tenPercentCoupons : List Coupon :=
  [{ code := "GIFTabc123", discountPercentage := F64.ofInt 10,
     expirationDate := 4102444800000, isActive := true, userId := aliceId }]

/-- A payment processor that accepts both calls. -/
def acceptingReplies : ProcessorReplies :=
  { coupon := .ok "stripe_coupon_1", session := .ok ("cs_test_1", none) }

/-- The stores in which the payment processor holds one paid session whose
only line item carries no product identifier. -/
def worldBadSession : World :=
  { emptyWorld with
    users := [alice]
    stripeSessions :=
      [{ id := "cs_test_bad", payment_status := "paid", amount_total := some (F64.ofInt 1000),
         metadata :=
           { userId := aliceId, coupon := none, couponCode := none,
             products := some [{ id := none, _id := none, quantity := some (F64.ofInt 1),
                                 price := some (F64.ofInt 10) }] },
         line_items := [], discounts := [] }] }

/-- The stores in which the payment processor holds one paid session that was
not opened by createCheckoutSession: its metadata has no `products` entry. -/
def worldForeignSession : World :=
  { emptyWorld with
    users := [alice]
    stripeSessions :=
      [{ id := "cs_test_foreign", payment_status := "paid",
         amount_total := some (F64.ofInt 1000),
         metadata := { userId := aliceId, coupon := none, couponCode := none, products := none },
         line_items := [], discounts := [] }] }

/-- The stores in which the payment processor holds one paid session for one
mug bought by Alice. -/
def worldGoodSession : World :=
  { emptyWorld with
    users := [alice]
    stripeSessions :=
      [{ id := "cs_test_good", payment_status := "paid", amount_total := some (F64.ofInt 1000),
         metadata :=
           { userId := aliceId, coupon := none, couponCode := none,
             products := some [{ id := some mugId, _id := none, quantity := some (F64.ofInt 1),
                                 price := some (F64.ofInt 10) }] },
         line_items := [], discounts := [] }] }

/-- The decoded line item of the session of `worldGoodSession`. -/
def goodLineItem : MetaProduct :=
  { id := some mugId, _id := none, quantity := some (F64.ofInt 1), price := some (F64.ofInt 10) }

/-- The session of `worldGoodSession`. -/
def goodSession : StripeSession :=
  { id := "cs_test_good", payment_status := "paid", amount_total := some (F64.ofInt 1000),
    metadata :=
      { userId := aliceId, coupon := none, couponCode := none, products := some [goodLineItem] },
    line_items := [], discounts := [] }

/-- Two items of a cart. -/
def cartItemA : CartItem :=
  { id := "64b0c0ffee0000000000ca01", products := some mugId, quantity := F64.ofInt 2 }

/-- The second item of the example cart. -/
def cartItemB : CartItem :=
  { id := "64b0c0ffee0000000000ca02", products := some mugId, quantity := F64.ofInt 1 }

/-- The stores in which Alice has two items in her cart. -/
def worldWithCart : World :=
  { emptyWorld with users := [{ alice with cartItems := [cartItemA, cartItemB] }] }

/-- Alice as the middleware attaches her to a request, with her cart. -/
def aliceWithCart : SessionUser :=
  { alice.withoutPassword with cartItems := [cartItemA, cartItemB] }

/-- The stores after Alice opened a checkout session for the cart of the spec
without a coupon: the processor holds the session, which is not paid. -/
def worldUnpaid : World :=
  (createCheckoutSession worldWithAlice 0 alice.withoutPassword (some specCart) none
    { coupon := .ok "stripe_coupon_1", session := .ok ("cs_test_1", some (F64.ofInt 2500)) }
    "GIFTnew001").2

/-- A coupon Alice used earlier, and her current active 10% coupon. -/
def aliceCoupons : List Coupon :=
  [{ code := "GIFTold001", discountPercentage := F64.ofInt 10, expirationDate := 4102444800000,
     isActive := false, userId := aliceId },
   { code := "GIFTabc123", discountPercentage := F64.ofInt 10, expirationDate := 4102444800000,
     isActive := true, userId := aliceId }]

/-- The stores after Alice opened a checkout session for the cart of the spec
with her coupon GIFTabc123 and paid the 2250 minor units at the processor. -/
def worldCouponPaid : World :=
  payAtProcessor
    (createCheckoutSession { worldWithAlice with coupons := aliceCoupons } 0
      alice.withoutPassword (some specCart) (some "GIFTabc123") acceptingReplies "GIFTnew001").2
    "cs_test_1" (F64.ofInt 2250)

/-- A cart of one product priced 250.00. -/
def bigCart : List CartProduct :=
  [{ _id := some mugId, name := "Espresso machine", image := "machine.png",
     price := F64.ofDecimal 25000 100, quantity := F64.ofInt 1 }]

/-- Two products, the second one featured. -/
def exampleProducts : List Product :=
  [{ _id := mugId, name := "Mug", description := "A mug for coffee", price := F64.ofInt 10,
     image := "mug.png", category := "kitchen", isfeatured := false },
   { _id := "64b0c0ffee00000000000456", name := "Coaster", description := "A coaster of cork",
     price := F64.ofInt 5, image := "coaster.png", category := "kitchen", isfeatured := true }]

/-- The stores holding the two example products. -/
def worldWithProducts : World := { emptyWorld with products := exampleProducts }

/-- Two orders of Alice: one of 10 on day 3 at 10:00 and one of 25 on day 8 at
11:00 (days counted from the epoch, UTC). -/
def weekOrders : List Order :=
  [{ _id := "64b0c0ffee00000000000aaa", user := aliceId,
     products := [{ product := mugId, quantity := F64.ofInt 1, price := F64.ofInt 10 }],
     totalAmount := F64.ofInt 10, stripeSessionId := "cs_test_day3", createdAt := 295200000 },
   { _id := "64b0c0ffee00000000000bbb", user := aliceId,
     products := [{ product := mugId, quantity := F64.ofInt 1, price := F64.ofInt 25 }],
     totalAmount := F64.ofInt 25, stripeSessionId := "cs_test_day8", createdAt := 730800000 }]

/-- The end of the week of the example: day 8 at 12:00. -/
def weekEnd : Instant := 734400000

/-- Seven days before `weekEnd`: day 1 at 12:00. -/
def weekStart : Instant := weekEnd - 7 * msPerDay

/-- The fields of the entries of a series, for display. -/
def seriesTriples (series : Option (List DailySales)) : Option (List (Int × JSNumber × JSNumber)) :=
  series.map (fun entries => entries.map (fun e => (e.date, e.sales, e.revenue)))

/-- A zone that is 4 hours behind UTC until 2026-11-01T06:00:00Z and 5 hours
behind from then on, as local time in New York is around the end of daylight
saving time in 2026.  A local time is read with the earlier offset up to the
local 02:00 of the change. -/
def fallBackZone : TimeZone :=
  { offsetAtUtc := fun t => if t < 1793512800000 then -14400000 else -18000000
    offsetAtLocal := fun l => if l < 1793512800000 - 14400000 then -14400000 else -18000000 }

/-- The instant 2026-10-29T12:00:00Z. -/
def octoberStart : Instant := 1793275200000

/-- The instant 2026-11-05T12:00:00Z, seven days after `octoberStart`. -/
def novemberEnd : Instant := 1793880000000

/-! # Part II: theorems -/

/-! ## validateCoupon -/

/-- A found coupon satisfies the three conditions of the query. -/
theorem Coupon.findOneActive_some {coupons : List Coupon} {code : String} {userId : ObjectId}
    {c : Coupon} (h : Coupon.findOneActive coupons code userId = some c) :
    c ∈ coupons ∧ c.code = code ∧ c.userId = userId ∧ c.isActive = true := by
  unfold Coupon.findOneActive at h
  have hmem := List.mem_of_find?_eq_some h
  have hp := List.find?_some h
  simp only [Bool.and_eq_true, beq_iff_eq] at hp
  exact ⟨hmem, hp.1.1, hp.1.2, hp.2⟩

/-- The handler reports "valid" exactly when the query finds a coupon whose
expiration instant is not after the current instant. -/
theorem validateCoupon_reportsValid_iff (coupons : List Coupon) (now : Instant)
    (userId : ObjectId) (code : String) :
    (validateCoupon coupons now userId code).reportsValid ↔
      ∃ c, Coupon.findOneActive coupons code userId = some c ∧ c.expirationDate ≤ now := by
  unfold validateCoupon Response.reportsValid
  cases hfind : Coupon.findOneActive coupons code userId with
  | none => simp
  | some c =>
    by_cases hexp : c.expirationDate > now
    · simp only [if_pos hexp]
      constructor
      · rintro ⟨h, _⟩
        exact absurd h (by decide)
      · rintro ⟨c', hc', hle⟩
        cases hc'
        exact absurd hexp (not_lt.mpr hle)
    · simp only [if_neg hexp]
      constructor
      · intro _
        exact ⟨c, rfl, not_lt.mp hexp⟩
      · intro _
        simp

set_option maxRecDepth 100000 in
/-- C1 (code defect). An active coupon owned by the requesting user whose
expirationDate (1000) is earlier than now (2000) is reported "valid" with
status 200, while the same coupon validated before it expires (now = 500) is
answered 404 "Coupon expired": the expiry comparison is inverted. -/
theorem validateCoupon_expired_reports_valid :
    validateCoupon expiredCouponStore 2000 aliceId "GIFTabc123"
        = { status := 200, body := .couponValid "Coupon is valid" none } ∧
      validateCoupon expiredCouponStore 500 aliceId "GIFTabc123"
        = { status := 404, body := .message "Coupon expired" } := by
  decide

/-! ## Revocation -/

set_option maxRecDepth 100000 in
/-- C3 (code defect). Alice signs up at instant 0 and is issued a refresh
token; she logs out with it at instant 1000, which answers 200 and deletes the
cached record of her refresh token.  Presented again at instant 2000, the same
token still passes the session middleware: protectRoute calls next with her
record and never reads the cache.  The refresh handler, which does compare the
token with the cached record, rejects it with 400. -/
theorem protectRoute_accepts_token_after_logout :
    (signup exampleDeps emptyWorld 0 aliceId "salt" "Alice" "alice@example.com"
        "correct horse").1.cookies.map (fun c => c.value)
      = [(generateTokens exampleDeps aliceId 0).1, aliceRefreshToken] ∧
    worldAfterSignup.cache.get 1000 (refreshKey aliceId) = some (.token aliceRefreshToken) ∧
    (logout exampleDeps worldAfterSignup 1000 (some aliceRefreshToken)).1.status = 200 ∧
    (logout exampleDeps worldAfterSignup 1000 (some aliceRefreshToken)).2.cache.get 2000
        (refreshKey aliceId) = none ∧
    protectRoute exampleDeps
        (logout exampleDeps worldAfterSignup 1000 (some aliceRefreshToken)).2.users 2000
        (some aliceRefreshToken) = .next alice.withoutPassword ∧
    (refreshToken exampleDeps
        (logout exampleDeps worldAfterSignup 1000 (some aliceRefreshToken)).2 2000
        (some aliceRefreshToken)).1
      = { status := 400, body := .message "Invalid refresh token" } := by
  decide

/-! ## The session middleware -/

/-- Verification succeeds exactly on a token signed with the secret and not
expired, and returns its payload. -/
theorem jwtVerify_ok_iff (t : Token) (secret : String) (now : Instant) (j : Jwt) :
    jwtVerify t secret now = .ok j ↔
      t = .jwt j ∧ j.secret = secret ∧ j.notExpiredAt now := by
  cases t with
  | garbage raw => simp [jwtVerify]
  | jwt j' =>
    obtain ⟨uid, sec, iat, exp⟩ := j'
    by_cases hs : sec = secret
    · cases exp with
      | none =>
        simp only [jwtVerify, hs, ne_eq, not_true_eq_false, if_false]
        constructor
        · intro h
          injection h with h
          subst h
          exact ⟨rfl, rfl, trivial⟩
        · rintro ⟨h, _, _⟩
          injection h with h
          rw [h]
      | some e =>
        simp only [jwtVerify, hs, ne_eq, not_true_eq_false, if_false]
        by_cases hlt : now / 1000 ≥ e
        · simp only [hlt, if_true]
          constructor
          · intro h
            cases h
          · rintro ⟨h, _, hne⟩
            injection h with h
            subst h
            exact absurd hlt (not_le.mpr hne)
        · simp only [hlt, if_false]
          constructor
          · intro h
            injection h with h
            subst h
            exact ⟨rfl, rfl, not_le.mp hlt⟩
          · rintro ⟨h, _, _⟩
            injection h with h
            rw [h]
    · simp only [jwtVerify, ne_eq, hs, not_false_eq_true, if_true]
      constructor
      · intro h
        cases h
      · rintro ⟨h, hsec, _⟩
        injection h with h
        subst h
        exact absurd hsec hs

/-- A signed token is a truthy cookie. -/
theorem truthyCookie_jwt (j : Jwt) : truthyCookie (some (.jwt j)) = some (.jwt j) := rfl

/-- A cookie that is not a token never verifies. -/
theorem protectRoute_garbage (d : Deps) (users : List User) (now : Instant) (raw : String) :
    ∃ m, protectRoute d users now (some (.garbage raw))
      = .respond { status := 401, body := .message m } := by
  unfold protectRoute truthyCookie
  split
  · exact ⟨_, rfl⟩
  · rename_i c t hc
    split at hc
    · cases hc
    · rename_i hne
      cases hc
      exact ⟨_, rfl⟩

/-- C7. protectRoute calls next, with req.user the stored user without its
password, exactly when the refreshToken cookie is present and is a token signed
with the refresh secret, not expired, whose userId is the identifier of an
existing user; in every other case it responds 401 and does not call next. -/
theorem protectRoute_next_iff (d : Deps) (users : List User) (now : Instant)
    (cookie : Option Token) :
    (∀ su, protectRoute d users now cookie = .next su ↔
      ∃ j id u, cookie = some (.jwt j) ∧ j.secret = d.refreshSecret ∧ j.notExpiredAt now ∧
        j.userId = some id ∧ d.objectIdIsValid id = true ∧
        users.find? (fun u => u._id == id) = some u ∧ su = u.withoutPassword) ∧
    ((∃ su, protectRoute d users now cookie = .next su) ∨
      ∃ m, protectRoute d users now cookie
        = .respond { status := 401, body := .message m }) := by
  cases cookie with
  | none =>
    refine ⟨fun su => ⟨fun h => ?_, fun h => ?_⟩, Or.inr ⟨_, rfl⟩⟩
    · cases h
    · obtain ⟨_, _, _, h, _⟩ := h
      cases h
  | some t =>
    cases t with
    | garbage raw =>
      obtain ⟨m, hm⟩ := protectRoute_garbage d users now raw
      refine ⟨fun su => ⟨fun h => ?_, fun h => ?_⟩, Or.inr ⟨m, hm⟩⟩
      · rw [hm] at h
        cases h
      · obtain ⟨_, _, _, h, _⟩ := h
        cases h
    | jwt j =>
      cases hv : jwtVerify (.jwt j) d.refreshSecret now with
      | error e =>
        have hout : protectRoute d users now (some (.jwt j))
            = .respond { status := 401, body := .message "Unauthorized - Invalid access token" } := by
          simp only [protectRoute, truthyCookie_jwt, hv]
        refine ⟨fun su => ⟨fun h => ?_, fun h => ?_⟩, Or.inr ⟨_, hout⟩⟩
        · rw [hout] at h
          cases h
        · obtain ⟨j', _, _, hc, hsec, hexp, _⟩ := h
          injection hc with hc
          injection hc with hc
          subst hc
          have hok := (jwtVerify_ok_iff (.jwt j) d.refreshSecret now j).mpr ⟨rfl, hsec, hexp⟩
          rw [hok] at hv
          cases hv
      | ok j2 =>
        obtain ⟨hj, hsec, hexp⟩ := (jwtVerify_ok_iff _ _ _ _).mp hv
        injection hj with hj
        subst hj
        cases hid : j.userId with
        | none =>
          have hout : protectRoute d users now (some (.jwt j))
              = .respond { status := 401, body := .message "Unauthorized - User not found" } := by
            simp only [protectRoute, truthyCookie_jwt, hv, User.findById, hid]
          refine ⟨fun su => ⟨fun h => ?_, fun h => ?_⟩, Or.inr ⟨_, hout⟩⟩
          · rw [hout] at h
            cases h
          · obtain ⟨j', _, _, hc, _, _, hid', _⟩ := h
            injection hc with hc
            injection hc with hc
            subst hc
            rw [hid] at hid'
            cases hid'
        | some id =>
          by_cases hvalid : d.objectIdIsValid id = true
          · cases hfind : users.find? (fun u => u._id == id) with
            | none =>
              have hout : protectRoute d users now (some (.jwt j))
                  = .respond { status := 401, body := .message "Unauthorized - User not found" } := by
                simp only [protectRoute, truthyCookie_jwt, hv, User.findById, hid, hvalid,
                  if_true, hfind]
              refine ⟨fun su => ⟨fun h => ?_, fun h => ?_⟩, Or.inr ⟨_, hout⟩⟩
              · rw [hout] at h
                cases h
              · obtain ⟨j', id', u, hc, _, _, hid', _, hf, _⟩ := h
                injection hc with hc
                injection hc with hc
                subst hc
                rw [hid] at hid'
                injection hid' with hid'
                subst hid'
                rw [hfind] at hf
                cases hf
            | some u =>
              have hout : protectRoute d users now (some (.jwt j)) = .next u.withoutPassword := by
                simp only [protectRoute, truthyCookie_jwt, hv, User.findById, hid, hvalid,
                  if_true, hfind]
              refine ⟨fun su => ⟨fun h => ?_, fun h => ?_⟩, Or.inl ⟨_, hout⟩⟩
              · rw [hout] at h
                injection h with h
                exact ⟨j, id, u, rfl, hsec, hexp, hid, hvalid, hfind, h.symm⟩
              · obtain ⟨j', id', u', hc, _, _, hid', _, hf, hsu⟩ := h
                injection hc with hc
                injection hc with hc
                subst hc
                rw [hid] at hid'
                injection hid' with hid'
                subst hid'
                rw [hfind] at hf
                injection hf with hf
                subst hf
                rw [hout, hsu]
          · have hout : protectRoute d users now (some (.jwt j))
                = .respond { status := 401, body := .message "Unauthorized - Invalid access token" } := by
              simp only [protectRoute, truthyCookie_jwt, hv, User.findById, hid, hvalid]
              rfl
            refine ⟨fun su => ⟨fun h => ?_, fun h => ?_⟩, Or.inr ⟨_, hout⟩⟩
            · rw [hout] at h
              cases h
            · obtain ⟨j', id', u, hc, _, _, hid', hv', _⟩ := h
              injection hc with hc
              injection hc with hc
              subst hc
              rw [hid] at hid'
              injection hid' with hid'
              subst hid'
              exact absurd hv' hvalid

/-! ## Signup and login -/

/-- A user of the stored email is found by the query. -/
theorem User.findOneByEmail_isSome_of_mem (d : Deps) (users : List User) (email : String)
    (u : User) (hu : u ∈ users) (he : u.email = d.emailSetter email) :
    ∃ v, User.findOneByEmail d users email = some v := by
  unfold User.findOneByEmail
  cases hfind : users.find? (fun u => u.email == d.emailSetter email) with
  | some v => exact ⟨v, rfl⟩
  | none =>
    have hall := List.find?_eq_none.mp hfind u hu
    simp [he] at hall

/-- The query finds nothing exactly when no stored email is the query value. -/
theorem User.findOneByEmail_eq_none (d : Deps) (users : List User) (email : String) :
    User.findOneByEmail d users email = none ↔ ∀ u ∈ users, u.email ≠ d.emailSetter email := by
  unfold User.findOneByEmail
  rw [List.find?_eq_none]
  constructor
  · intro h u hu he
    exact h u hu (by simp [he])
  · intro h u hu
    simpa using h u hu

/-- C8. When the user store already holds a user with email e (the stored email
being e as the schema setters write it), signup with email e answers 400 "user
already exist", sets no cookie, and leaves every store unchanged: no user
record is created and no refresh token is stored. -/
theorem signup_existing_email (d : Deps) (w : World) (now : Instant) (newId : ObjectId)
    (salt name email password : String) (u : User) (hu : u ∈ w.users)
    (he : u.email = d.emailSetter email) :
    signup d w now newId salt name email password
      = ({ status := 400, body := .message "user already exist", cookies := [], cleared := [] },
         w) := by
  obtain ⟨v, hv⟩ := User.findOneByEmail_isSome_of_mem d w.users email u hu he
  simp only [signup, hv]

/-- C8 at a concrete input: Alice is registered, and a second signup with her
email is refused and changes nothing. -/
theorem signup_existing_email_witness :
    alice ∈ worldWithAlice.users ∧
      alice.email = exampleDeps.emailSetter "alice@example.com" ∧
      signup exampleDeps worldWithAlice 5000 mugId "salt2" "Mallory" "alice@example.com" "hunter2"
        = ({ status := 400, body := .message "user already exist", cookies := [],
             cleared := [] }, worldWithAlice) :=
  ⟨List.mem_singleton.mpr rfl, rfl,
    signup_existing_email exampleDeps worldWithAlice 5000 mugId "salt2" "Mallory"
      "alice@example.com" "hunter2" alice (List.mem_singleton.mpr rfl) rfl⟩

/-- C9. A login with an email that matches no user and a login with an email
that matches a user but with a password the hash comparison rejects get the
same response, status 400 with body "Invalid email or password" and no cookie,
and both leave every store unchanged (no refresh token is stored). -/
theorem login_failures_indistinguishable (d : Deps) (w : World) (now now' : Instant)
    (e1 p1 e2 p2 : String) (u : User)
    (hnone : ∀ v ∈ w.users, v.email ≠ d.emailSetter e1)
    (hsome : User.findOneByEmail d w.users e2 = some u)
    (hwrong : d.bcryptCompare p2 u.password = false) :
    login d w now e1 p1
        = ({ status := 400, body := .message "Invalid email or password", cookies := [],
             cleared := [] }, w) ∧
      login d w now' e2 p2 = login d w now e1 p1 := by
  have h1 : User.findOneByEmail d w.users e1 = none :=
    (User.findOneByEmail_eq_none d w.users e1).mpr hnone
  constructor
  · simp only [login, h1]
  · simp only [login, h1, hsome, hwrong, Bool.false_eq_true, if_false]

set_option maxRecDepth 100000 in
/-- C9 at a concrete input: an unknown address and the address of Alice with a
wrong password are answered alike. -/
theorem login_failures_indistinguishable_witness :
    login exampleDeps worldWithAlice 7000 "bob@example.com" "anything"
        = ({ status := 400, body := .message "Invalid email or password", cookies := [],
             cleared := [] }, worldWithAlice) ∧
      login exampleDeps worldWithAlice 8000 "alice@example.com" "wrong horse"
        = login exampleDeps worldWithAlice 7000 "bob@example.com" "anything" :=
  login_failures_indistinguishable exampleDeps worldWithAlice 7000 8000 "bob@example.com"
    "anything" "alice@example.com" "wrong horse" alice (by decide) (by decide) (by decide)

/-- The record `User.create` stores for a signup. -/
theorem signup_success (d : Deps) (w : World) (now : Instant) (newId : ObjectId)
    (salt name email password : String)
    (hs : (signup d w now newId salt name email password).1.status = 200) :
    User.findOneByEmail d w.users email = none ∧
      (signup d w now newId salt name email password).2.users
        = w.users ++ [{ _id := newId, name := name, email := d.emailSetter email,
                        password := d.bcryptHash password salt, cartItems := [],
                        role := "customer" }] := by
  unfold signup at hs ⊢
  cases hfind : User.findOneByEmail d w.users email with
  | some v =>
    rw [hfind] at hs
    simp at hs
  | none =>
    rw [hfind] at hs
    refine ⟨rfl, ?_⟩
    unfold User.create at hs ⊢
    by_cases h1 : name = ""
    · rw [if_pos h1] at hs
      simp at hs
    · rw [if_neg h1] at hs ⊢
      by_cases h2 : d.emailSetter email = ""
      · rw [if_pos h2] at hs
        simp at hs
      · rw [if_neg h2] at hs ⊢
        by_cases h3 : password = ""
        · rw [if_pos h3] at hs
          simp at hs
        · rw [if_neg h3] at hs ⊢
          by_cases h4 : (w.users.any (fun u => u.email == d.emailSetter email)) = true
          · rw [if_pos h4] at hs
            simp at hs
          · rw [if_neg h4]

/-- A record set with a positive expiry is read back at the instant it was
set. -/
theorem Cache.get_set_self (c : Cache) (key : String) (v : CacheValue) (s : Nat)
    (now : Instant) (hs : 0 < s) :
    (c.set key v (some s) now).get now key = some v := by
  have hlive : now < now + (s : Int) * 1000 := by
    have hpos : (0 : Int) < (s : Int) * 1000 := by positivity
    exact lt_add_of_pos_right now hpos
  simp [Cache.set, Cache.get, List.find?, CacheEntry.live, hlive]

/-- C6. After a signup that succeeds (which requires that no record holds the
email), a login with the same email and password on the resulting stores
succeeds, provided bcrypt accepts the password it hashed: it answers 200 with
the details of the new user, sets the accessToken and refreshToken cookies, and
stores the refresh token under refresh_token:userId, where it is read back. -/
theorem login_after_signup (d : Deps) (hb : d.BcryptSound) (w : World) (now now' : Instant)
    (newId : ObjectId) (salt name email password : String)
    (hs : (signup d w now newId salt name email password).1.status = 200) :
    (login d (signup d w now newId salt name email password).2 now' email password).1
        = { status := 200,
            body := .userDetails newId name (d.emailSetter email) "customer",
            cookies :=
              [{ name := "accessToken", value := (generateTokens d newId now').1,
                 maxAge := 15 * 60 * 1000 },
               { name := "refreshToken", value := (generateTokens d newId now').2,
                 maxAge := 7 * 24 * 60 * 60 * 1000 }],
            cleared := [] } ∧
      (login d (signup d w now newId salt name email password).2 now' email password).2.cache.get
          now' (refreshKey newId) = some (.token (generateTokens d newId now').2) ∧
      (login d (signup d w now newId salt name email password).2 now' email password).2.users
        = (signup d w now newId salt name email password).2.users := by
  obtain ⟨hnone, husers⟩ := signup_success d w now newId salt name email password hs
  have hall := (User.findOneByEmail_eq_none d w.users email).mp hnone
  have hfind : User.findOneByEmail d
      (signup d w now newId salt name email password).2.users email
        = some { _id := newId, name := name, email := d.emailSetter email,
                 password := d.bcryptHash password salt, cartItems := [],
                 role := "customer" } := by
    rw [husers]
    unfold User.findOneByEmail at hnone ⊢
    rw [List.find?_append, hnone]
    simp [List.find?]
  have hcmp : d.bcryptCompare password (d.bcryptHash password salt) = true := hb password salt
  unfold login
  rw [hfind]
  simp only [hcmp, if_true, setCookie]
  refine ⟨trivial, ?_, trivial⟩
  exact Cache.get_set_self _ _ _ _ _ (by decide)

/-- The stand-in for bcrypt of the examples accepts the password it hashed. -/
theorem exampleDeps_bcryptSound : exampleDeps.BcryptSound := by
  intro password salt
  simp [exampleDeps]

set_option maxRecDepth 100000 in
/-- C6 at a concrete input: Alice signs up on the empty stores at instant 0 and
logs in at instant 3000. -/
theorem login_after_signup_witness :
    exampleDeps.BcryptSound ∧
      (signup exampleDeps emptyWorld 0 aliceId "salt" "Alice" "alice@example.com"
        "correct horse").1.status = 200 ∧
      ((login exampleDeps worldAfterSignup 3000 "alice@example.com" "correct horse").1
        = { status := 200,
            body := .userDetails aliceId "Alice" "alice@example.com" "customer",
            cookies :=
              [{ name := "accessToken", value := (generateTokens exampleDeps aliceId 3000).1,
                 maxAge := 15 * 60 * 1000 },
               { name := "refreshToken", value := (generateTokens exampleDeps aliceId 3000).2,
                 maxAge := 7 * 24 * 60 * 60 * 1000 }],
            cleared := [] } ∧
      (login exampleDeps worldAfterSignup 3000 "alice@example.com" "correct horse").2.cache.get
          3000 (refreshKey aliceId) = some (.token (generateTokens exampleDeps aliceId 3000).2) ∧
      (login exampleDeps worldAfterSignup 3000 "alice@example.com" "correct horse").2.users
        = worldAfterSignup.users) :=
  ⟨exampleDeps_bcryptSound, by decide,
    login_after_signup exampleDeps exampleDeps_bcryptSound emptyWorld 0 3000 aliceId "salt"
      "Alice" "alice@example.com" "correct horse" (by decide)⟩

/-! ## Checkout -/

/-- C10. When req.body.products is not an array, or is an empty array,
createCheckoutSession answers 400 "Invalid products" and returns every store as
it was: no session and no coupon is created at the payment processor and no
reward coupon is minted. -/
theorem createCheckoutSession_invalid_products (w : World) (now : Instant) (user : SessionUser)
    (couponCode : Option String) (replies : ProcessorReplies) (newCode : String) :
    createCheckoutSession w now user none couponCode replies newCode
        = ({ status := 400, body := .message "Invalid products", cookies := [], cleared := [] },
           w) ∧
      createCheckoutSession w now user (some []) couponCode replies newCode
        = ({ status := 400, body := .message "Invalid products", cookies := [], cleared := [] },
           w) :=
  ⟨rfl, rfl⟩

set_option maxRecDepth 100000 in
/-- The total of the cart of one product priced 0.07 is the double next above
7. -/
theorem checkoutTotal_driftCart :
    checkoutTotal [] aliceId driftCart none = ⟨7881299347898369, -50⟩ := by
  decide

set_option maxRecDepth 100000 in
/-- C4 (code defect). For the cart of one product priced 0.07 (a whole number
of cents) with quantity 1 and no coupon, the total computed by
createCheckoutSession is 7881299347898369 / 2 ^ 50 = 7 + 2 ^ -50, printed
7.000000000000001: it is not an integer number of minor units and differs from
S = 7, because price * 100 is a product of doubles that is never rounded; the
same amount is sent to the processor as unit_amount.  The example of the spec
does hold: the cart 2 x 10.00 + 1 x 5.00 with a 10% coupon totals 2250. -/
theorem checkoutTotal_not_integer_cents :
    (checkoutTotal [] aliceId driftCart none).toRat = 7 + 1 / 2 ^ 50 ∧
      (checkoutTotal [] aliceId driftCart none).isInteger = false ∧
      (createCheckoutSession emptyWorld 0 alice.withoutPassword (some driftCart) none
          acceptingReplies "GIFTxyz789").2.stripeSessions.map
            (fun s => s.line_items.map (fun i => i.unit_amount))
        = [[⟨7881299347898369, -50⟩]] ∧
      checkoutTotal tenPercentCoupons aliceId specCart (some "GIFTabc123") = F64.ofInt 2250 := by
  refine ⟨?_, by decide, by decide, by decide⟩
  rw [checkoutTotal_driftCart]
  norm_num [F64.toRat]

/-! ## Reconciliation -/

set_option maxRecDepth 100000 in
/-- C2, the claim as stated fails. The processor holds a paid session whose
metadata has no products entry, and the order store is empty.  In both calls
of checkoutSuccess for it JSON.parse throws before the store is read, the
catch block answers 500 and no order is created: the second call gives the
response of the first and is not rejected with 400 "Order already exists". -/
theorem checkoutSuccess_second_call_not_400 :
    worldForeignSession.orders = [] ∧
      (checkoutSuccess exampleDeps worldForeignSession 1000 mugId
        "cs_test_foreign").1.status = 500 ∧
      (checkoutSuccess exampleDeps worldForeignSession 1000 mugId
        "cs_test_foreign").2.orders = [] ∧
      (checkoutSuccess exampleDeps
          (checkoutSuccess exampleDeps worldForeignSession 1000 mugId "cs_test_foreign").2
          2000 mugId "cs_test_foreign").1
        = (checkoutSuccess exampleDeps worldForeignSession 1000 mugId "cs_test_foreign").1 ∧
      (checkoutSuccess exampleDeps
          (checkoutSuccess exampleDeps worldForeignSession 1000 mugId "cs_test_foreign").2
          2000 mugId "cs_test_foreign").1
        ≠ { status := 400, body := .message "Order already exists" } ∧
      (checkoutSuccess exampleDeps
          (checkoutSuccess exampleDeps worldForeignSession 1000 mugId "cs_test_foreign").2
          2000 mugId "cs_test_foreign").2.orders = [] := by
  decide

set_option maxRecDepth 100000 in
/-- On a paid session with a well-formed line item the first call creates the
order and answers 200, and the second call is rejected with 400 "Order already
exists" and creates nothing. -/
theorem checkoutSuccess_twice_goodSession :
    (checkoutSuccess exampleDeps worldGoodSession 1000 "64b0c0ffee00000000000aaa"
        "cs_test_good").1.status = 200 ∧
      ordersOfSession
        (checkoutSuccess exampleDeps worldGoodSession 1000 "64b0c0ffee00000000000aaa"
          "cs_test_good").2.orders "cs_test_good" = 1 ∧
      (checkoutSuccess exampleDeps
          (checkoutSuccess exampleDeps worldGoodSession 1000 "64b0c0ffee00000000000aaa"
            "cs_test_good").2
          2000 "64b0c0ffee00000000000bbb" "cs_test_good").1
        = { status := 400, body := .message "Order already exists" } := by
  decide

/-- A failure of `Order.create` does not depend on the identifier and the
instant drawn for the new record. -/
theorem Order.create_error_indep (d : Deps) (orders : List Order) (id id' : ObjectId)
    (now now' : Instant) (user : String) (items : List OrderItemDraft) (total : JSNumber)
    (s : String) (e : Thrown)
    (h : Order.create d orders id now user items total s = .error e) :
    Order.create d orders id' now' user items total s = .error e := by
  unfold Order.create at h ⊢
  by_cases h1 : ¬ d.objectIdIsValid user = true
  · rw [if_pos h1] at h ⊢
    exact h
  · rw [if_neg h1] at h ⊢
    cases hv : validateOrderItems items with
    | error e' =>
      rw [hv] at h
      exact h
    | ok is =>
      rw [hv] at h
      simp only at h ⊢
      by_cases h2 : ¬ F64.ge total F64.zero = true
      · rw [if_pos h2] at h ⊢
        exact h
      · rw [if_neg h2] at h ⊢
        by_cases h3 : (orders.any (fun o => o.stripeSessionId == s)) = true
        · rw [if_pos h3] at h ⊢
          exact h
        · rw [if_neg h3] at h
          cases h

/-- A successful `Order.create` appends one order carrying the session
handle. -/
theorem Order.create_ok (d : Deps) (orders : List Order) (id : ObjectId) (now : Instant)
    (user : String) (items : List OrderItemDraft) (total : JSNumber) (s : String)
    (o : Order) (orders' : List Order)
    (h : Order.create d orders id now user items total s = .ok (o, orders')) :
    orders' = orders ++ [o] ∧ o.stripeSessionId = s := by
  unfold Order.create at h
  by_cases h1 : ¬ d.objectIdIsValid user = true
  · rw [if_pos h1] at h
    cases h
  · rw [if_neg h1] at h
    cases hv : validateOrderItems items with
    | error e' =>
      rw [hv] at h
      cases h
    | ok is =>
      rw [hv] at h
      simp only at h
      by_cases h2 : ¬ F64.ge total F64.zero = true
      · rw [if_pos h2] at h
        cases h
      · rw [if_neg h2] at h
        by_cases h3 : (orders.any (fun o => o.stripeSessionId == s)) = true
        · rw [if_pos h3] at h
          cases h
        · rw [if_neg h3] at h
          injection h with h
          injection h with ho hos
          subst ho
          exact ⟨hos.symm, rfl⟩

/-- Once an order of a session is appended, the query by session finds an
order. -/
theorem Order.findOneBySession_append (orders : List Order) (o : Order) (s : String)
    (ho : o.stripeSessionId = s) :
    ∃ o', Order.findOneBySession (orders ++ [o]) s = some o' := by
  unfold Order.findOneBySession
  cases hfind : (orders ++ [o]).find? (fun o => o.stripeSessionId == s) with
  | some o' => exact ⟨o', rfl⟩
  | none =>
    have hall := List.find?_eq_none.mp hfind o (by simp)
    simp [ho] at hall

/-- No order of a session is counted when the query by session finds none. -/
theorem ordersOfSession_eq_zero (orders : List Order) (s : String)
    (h : Order.findOneBySession orders s = none) : ordersOfSession orders s = 0 := by
  unfold Order.findOneBySession at h
  unfold ordersOfSession
  rw [List.length_eq_zero, List.filter_eq_nil_iff]
  intro o ho
  exact List.find?_eq_none.mp h o ho

/-- C2, amended. For every store and session handle s, when checkoutSuccess
runs twice in sequence for s, the second call leaves the order store as the
first call left it, and one of three cases holds.  The first call answers 200:
it found no order for s, added exactly one order, which carries
stripeSessionId = s, and the second call is rejected with 400 "Order already
exists".  The first call answers 400 "Order already exists": the store held an
order for s and is unchanged, and the second call is rejected with the same
400.  The first call answers 500: it created no order and the second call
gives the same response.  After both calls at most one order carries
stripeSessionId = s, or as many as before the calls. -/
theorem checkoutSuccess_twice (d : Deps) (w : World) (now1 now2 : Instant)
    (id1 id2 : ObjectId) (s : String) :
    (checkoutSuccess d (checkoutSuccess d w now1 id1 s).2 now2 id2 s).2.orders
        = (checkoutSuccess d w now1 id1 s).2.orders ∧
      (((checkoutSuccess d w now1 id1 s).1.status = 200 ∧
          Order.findOneBySession w.orders s = none ∧
          (∃ o : Order, o.stripeSessionId = s ∧
            (checkoutSuccess d w now1 id1 s).2.orders = w.orders ++ [o]) ∧
          ordersOfSession w.orders s = 0 ∧
          ordersOfSession (checkoutSuccess d w now1 id1 s).2.orders s = 1 ∧
          (checkoutSuccess d (checkoutSuccess d w now1 id1 s).2 now2 id2 s).1
            = { status := 400, body := .message "Order already exists" }) ∨
        ((checkoutSuccess d w now1 id1 s).1
            = { status := 400, body := .message "Order already exists" } ∧
          (∃ o : Order, Order.findOneBySession w.orders s = some o) ∧
          (checkoutSuccess d w now1 id1 s).2.orders = w.orders ∧
          (checkoutSuccess d (checkoutSuccess d w now1 id1 s).2 now2 id2 s).1
            = { status := 400, body := .message "Order already exists" }) ∨
        ((checkoutSuccess d w now1 id1 s).1.status = 500 ∧
          (checkoutSuccess d w now1 id1 s).2.orders = w.orders ∧
          (checkoutSuccess d (checkoutSuccess d w now1 id1 s).2 now2 id2 s).1
            = (checkoutSuccess d w now1 id1 s).1)) ∧
      (ordersOfSession
          (checkoutSuccess d (checkoutSuccess d w now1 id1 s).2 now2 id2 s).2.orders s ≤ 1 ∨
        ordersOfSession
          (checkoutSuccess d (checkoutSuccess d w now1 id1 s).2 now2 id2 s).2.orders s
            = ordersOfSession w.orders s) := by
  cases hfind : w.stripeSessions.find? (fun x => x.id == s) with
  | none => simp [checkoutSuccess, hfind]
  | some session =>
    cases hprod : session.metadata.products with
    | none => simp [checkoutSuccess, hfind, hprod]
    | some products =>
      cases hord : Order.findOneBySession w.orders s with
      | some o => simp [checkoutSuccess, hfind, hprod, hord]
      | none =>
        cases hitems : orderItemDrafts d products with
        | error e => simp [checkoutSuccess, hfind, hprod, hord, hitems]
        | ok items =>
          cases hcreate : Order.create d w.orders id1 now1 session.metadata.userId items
              (F64.div (session.amount_total.getD F64.zero) (F64.ofInt 100)) s with
          | error e =>
            have hcreate2 := Order.create_error_indep d w.orders id1 id2 now1 now2
              session.metadata.userId items _ s e hcreate
            simp [checkoutSuccess, hfind, hprod, hord, hitems, hcreate, hcreate2]
          | ok res =>
            obtain ⟨o, orders'⟩ := res
            obtain ⟨horders, hos⟩ := Order.create_ok d w.orders id1 now1 _ items _ s o orders'
              hcreate
            subst horders
            obtain ⟨o', ho'⟩ := Order.findOneBySession_append w.orders o s hos
            have hzero := ordersOfSession_eq_zero w.orders s hord
            have hone : ordersOfSession (w.orders ++ [o]) s = 1 := by
              unfold ordersOfSession at hzero ⊢
              rw [List.filter_append, List.length_append, hzero]
              simp [List.filter, hos]
            simp [checkoutSuccess, hfind, hprod, hord, hitems, hcreate, ho', hone, hzero, hos]

/-! ## The daily series -/

/-- One day later is the next calendar day. -/
theorem utcDay_add_day (t : Int) : utcDay (t + msPerDay) = utcDay t + 1 := by
  unfold utcDay msPerDay
  omega

/-- In a zone that keeps one offset, the next local day is 24 hours later. -/
theorem nextLocalDay_of_constantOffset (zone : TimeZone) (hz : zone.ConstantOffset)
    (t : Instant) : nextLocalDay zone t = t + msPerDay := by
  obtain ⟨offset, hutc, hlocal⟩ := hz
  unfold nextLocalDay
  simp only [hutc, hlocal]
  ring

/-- The zone of a host in UTC keeps one offset. -/
theorem utcZone_constantOffset : utcZone.ConstantOffset :=
  ⟨0, fun _ => rfl, fun _ => rfl⟩

/-- The loop of `getDatesInRange` ends where local days last 24 hours: when
exactly `n` more instants `cur, cur + 1 day, ...` are within the range and the
fuel exceeds `n`, it returns the days of these `n` instants, which are
consecutive. -/
theorem getDatesLoop_spec (zone : TimeZone) (hz : ∀ t, nextLocalDay zone t = t + msPerDay)
    (endDate : Int) (n : Nat) :
    ∀ (fuel : Nat) (cur : Int) (dates : List Int), n < fuel →
      endDate < cur + (n : Int) * msPerDay →
      (∀ k : Nat, k < n → cur + (k : Int) * msPerDay ≤ endDate) →
      getDatesLoop zone fuel cur endDate dates
        = some (dates ++ (List.range n).map (fun (k : Nat) => utcDay cur + (k : Int))) := by
  induction n with
  | zero =>
    intro fuel cur dates hfuel hend _
    cases fuel with
    | zero => omega
    | succ f =>
      have hnot : ¬ cur ≤ endDate := by
        simp only [Nat.cast_zero, zero_mul, add_zero] at hend
        omega
      simp [getDatesLoop, hnot]
  | succ n ih =>
    intro fuel cur dates hfuel hend hall
    cases fuel with
    | zero => omega
    | succ f =>
      have hle : cur ≤ endDate := by
        have := hall 0 (Nat.succ_pos n)
        simpa using this
      have hend' : endDate < (cur + msPerDay) + (n : Int) * msPerDay := by
        have : ((n + 1 : Nat) : Int) * msPerDay = msPerDay + (n : Int) * msPerDay := by
          push_cast
          ring
        rw [this] at hend
        omega
      have hall' : ∀ k : Nat, k < n → (cur + msPerDay) + (k : Int) * msPerDay ≤ endDate := by
        intro k hk
        have := hall (k + 1) (Nat.succ_lt_succ hk)
        have hcast : ((k + 1 : Nat) : Int) * msPerDay = msPerDay + (k : Int) * msPerDay := by
          push_cast
          ring
        rw [hcast] at this
        omega
      have hrec := ih f (cur + msPerDay) (dates ++ [utcDay cur]) (by omega) hend' hall'
      simp only [getDatesLoop, hle, if_true, hz, hrec, utcDay_add_day]
      rw [List.range_succ_eq_map, List.map_cons, List.map_map, List.append_assoc]
      simp only [List.singleton_append, Nat.cast_zero, add_zero, Option.some.injEq,
        List.append_cancel_left_eq, List.cons.injEq, true_and]
      apply List.map_congr_left
      intro k _
      simp only [Function.comp, Nat.succ_eq_add_one]
      push_cast
      ring

/-- The dates of a range that starts before it ends, where local days last 24
hours: one day per whole day between the two instants, plus one, from the day
of the start on. -/
theorem getDatesInRange_spec (zone : TimeZone) (hz : ∀ t, nextLocalDay zone t = t + msPerDay)
    (startDate endDate : Int) (h : startDate ≤ endDate) :
    getDatesInRange zone startDate endDate
      = some ((List.range (((endDate - startDate) / msPerDay).toNat + 1)).map
          (fun (k : Nat) => utcDay startDate + (k : Int))) := by
  have hq : 0 ≤ (endDate - startDate) / msPerDay := by
    unfold msPerDay
    omega
  have hfuel : ((endDate - startDate) / msPerDay).toNat + 1
      < ((endDate - startDate) / 3600000).toNat + 2 := by
    unfold msPerDay at hq ⊢
    omega
  have hspec := getDatesLoop_spec zone hz endDate
    (((endDate - startDate) / msPerDay).toNat + 1)
    (((endDate - startDate) / 3600000).toNat + 2) startDate [] hfuel
    (by
      push_cast
      rw [Int.toNat_of_nonneg hq]
      unfold msPerDay at hq ⊢
      omega)
    (by
      intro k hk
      have hk' : (k : Int) ≤ (endDate - startDate) / msPerDay := by
        have : (k : Int) < (((endDate - startDate) / msPerDay).toNat : Int) + 1 := by
          exact_mod_cast hk
        rw [Int.toNat_of_nonneg hq] at this
        omega
      unfold msPerDay at hq hk' ⊢
      omega)
  unfold getDatesInRange
  rw [hspec]
  simp

/-- The join keeps the dates, in order. -/
theorem joinSales_dates (rows : List SalesRow) (dates : List Int) :
    (joinSales rows dates).map (fun e => e.date) = dates := by
  induction dates with
  | nil => rfl
  | cons date rest ih =>
    unfold joinSales at ih ⊢
    rw [List.map_cons, List.map_cons, ih]

/-- An entry of the join whose date has no row is zero. -/
theorem joinSales_zero_fill (rows : List SalesRow) (dates : List Int) (e : DailySales)
    (he : e ∈ joinSales rows dates) (hno : ∀ r ∈ rows, r._id ≠ e.date) :
    e.sales = F64.zero ∧ e.revenue = F64.zero := by
  unfold joinSales at he
  obtain ⟨date, _, hdate⟩ := List.mem_map.mp he
  subst hdate
  have hfind : rows.find? (fun item => item._id == date) = none := by
    rw [List.find?_eq_none]
    intro r hr
    have := hno r hr
    simpa using this
  simp [hfind, jsOrZero]

/-- On a host whose zone keeps one offset to UTC, and for startDate <= endDate
and any result of the aggregation, the daily series is returned (the loop
ends) and has exactly (whole days between startDate and endDate) + 1 entries;
the dates are the day of startDate and the days after it, each the day after
the one before (ascending, no gap, no duplicate); an entry whose date has no
row in the aggregation has sales 0 and revenue 0.  getDailySalesData is this
series for the aggregation of the order collection. -/
theorem getDailySalesData_series (zone : TimeZone) (hz : zone.ConstantOffset)
    (rows : List SalesRow) (startDate endDate : Instant) (h : startDate ≤ endDate) :
    ∃ entries, dailySeries zone rows startDate endDate = some entries ∧
      entries.length = ((endDate - startDate) / msPerDay).toNat + 1 ∧
      entries.map (fun e => e.date)
        = (List.range (((endDate - startDate) / msPerDay).toNat + 1)).map
            (fun (k : Nat) => utcDay startDate + (k : Int)) ∧
      List.Chain' (fun a b => b.date = a.date + 1) entries ∧
      (∀ e ∈ entries, (∀ r ∈ rows, r._id ≠ e.date) →
        e.sales = F64.zero ∧ e.revenue = F64.zero) ∧
      ∀ orders, getDailySalesData zone orders startDate endDate
        = dailySeries zone (aggregateDailySales orders startDate endDate)
            startDate endDate := by
  have hdates := getDatesInRange_spec zone (nextLocalDay_of_constantOffset zone hz)
    startDate endDate h
  refine ⟨joinSales rows ((List.range (((endDate - startDate) / msPerDay).toNat + 1)).map
    (fun (k : Nat) => utcDay startDate + (k : Int))), ?_, ?_, ?_, ?_, ?_, fun _ => rfl⟩
  · unfold dailySeries
    rw [hdates]
    rfl
  · simp [joinSales]
  · exact joinSales_dates _ _
  · have hchain : List.Chain' (fun a b : Int => b = a + 1)
        ((List.range (((endDate - startDate) / msPerDay).toNat + 1)).map
          (fun (k : Nat) => utcDay startDate + (k : Int))) := by
      rw [List.chain'_map, List.chain'_range_succ]
      intro m _
      push_cast
      ring
    unfold joinSales
    rw [List.chain'_map]
    exact hchain
  · intro e he hno
    exact joinSales_zero_fill rows _ e he hno

set_option maxRecDepth 100000 in
/-- The series on a host in UTC at a concrete input: from 1 second after the
epoch to half a second into the fourth day, with no order at all, the series
has the three days 0, 1, 2. -/
theorem getDailySalesData_series_witness :
    utcZone.ConstantOffset ∧ (1000 : Instant) ≤ 259200500 ∧
      ∃ entries, dailySeries utcZone [] 1000 259200500 = some entries ∧
        entries.length = ((259200500 - 1000) / msPerDay).toNat + 1 ∧
        entries.map (fun e => e.date)
          = (List.range (((259200500 - 1000) / msPerDay).toNat + 1)).map
              (fun (k : Nat) => utcDay 1000 + (k : Int)) ∧
        List.Chain' (fun a b => b.date = a.date + 1) entries ∧
        (∀ e ∈ entries, (∀ r ∈ ([] : List SalesRow), r._id ≠ e.date) →
          e.sales = F64.zero ∧ e.revenue = F64.zero) ∧
        ∀ orders, getDailySalesData utcZone orders 1000 259200500
          = dailySeries utcZone (aggregateDailySales orders 1000 259200500)
              1000 259200500 :=
  ⟨utcZone_constantOffset, by decide,
    getDailySalesData_series utcZone utcZone_constantOffset [] 1000 259200500 (by decide)⟩

set_option maxRecDepth 100000 in
/-- C5 (code defect). On a host whose local time leaves daylight saving time
inside the range, the series is one entry short.  From 2026-10-29T12:00:00Z
(day 20755) to 2026-11-05T12:00:00Z (day 20762) there are 7 whole days, so
the claim promises 8 entries.  getDatesInRange steps with setDate(getDate() +
1), a day of local time, and the local day of the change lasts 25 hours: from
2026-11-01 on the instants are at 13:00Z, the eighth is after endDate, and
the series has the 7 entries of the days 20755 to 20761, without the day of
endDate.  On a host in UTC the same call gives the 8 entries. -/
theorem getDailySalesData_short_across_offset_change :
    octoberStart ≤ novemberEnd ∧
      ((novemberEnd - octoberStart) / msPerDay).toNat + 1 = 8 ∧
      utcDay octoberStart = 20755 ∧ utcDay novemberEnd = 20762 ∧
      nextLocalDay fallBackZone (octoberStart + 2 * msPerDay)
        = octoberStart + 3 * msPerDay + 3600000 ∧
      seriesTriples (getDailySalesData fallBackZone [] octoberStart novemberEnd)
        = some [(20755, F64.zero, F64.zero), (20756, F64.zero, F64.zero),
            (20757, F64.zero, F64.zero), (20758, F64.zero, F64.zero),
            (20759, F64.zero, F64.zero), (20760, F64.zero, F64.zero),
            (20761, F64.zero, F64.zero)] ∧
      seriesTriples (getDailySalesData utcZone [] octoberStart novemberEnd)
        = some [(20755, F64.zero, F64.zero), (20756, F64.zero, F64.zero),
            (20757, F64.zero, F64.zero), (20758, F64.zero, F64.zero),
            (20759, F64.zero, F64.zero), (20760, F64.zero, F64.zero),
            (20761, F64.zero, F64.zero), (20762, F64.zero, F64.zero)] := by
  decide

/-! ## The refresh token record -/

/-- A record set with an expiry is read back at any instant before the expiry
has passed. -/
theorem Cache.get_set_live (c : Cache) (key : String) (v : CacheValue) (s : Nat)
    (now later : Int) (hlive : later < now + (s : Int) * 1000) :
    (c.set key v (some s) now).get later key = some v := by
  simp [Cache.set, Cache.get, List.find?, CacheEntry.live, hlive]

/-- C11 (code defect). storeRefreshToken writes the token under
refresh_token:userId, but with EX = 7 * 24 * 60 * 60 * 1000 = 604800000, a
number of milliseconds passed as seconds: the record lives 7000 days, not the
604800 seconds of the token (exp = iat + 604800).  Eight days after issuance
the record is still read back although the token has expired. -/
theorem storeRefreshToken_expiry_not_seven_days (d : Deps) (cache : Cache) (userId : ObjectId)
    (now : Instant) :
    (storeRefreshToken cache userId (generateTokens d userId now).2 now).head?
        = some { key := "refresh_token:" ++ userId,
                 value := .token (generateTokens d userId now).2,
                 ex := some 604800000, setAt := now } ∧
      (generateTokens d userId now).2
        = .jwt { userId := some userId, secret := d.refreshSecret, iat := now / 1000,
                 exp := some (now / 1000 + 604800) } ∧
      (storeRefreshToken cache userId (generateTokens d userId now).2 now).get
          (now + 8 * msPerDay) (refreshKey userId)
        = some (.token (generateTokens d userId now).2) ∧
      jwtVerify (generateTokens d userId now).2 d.refreshSecret (now + 8 * msPerDay)
        = .error .tokenExpiredError := by
  refine ⟨rfl, rfl, ?_, ?_⟩
  · apply Cache.get_set_live
    unfold msPerDay
    have h : ∀ n : Int, n + 8 * (24 * 60 * 60 * 1000)
        < n + ((7 * 24 * 60 * 60 * 1000 : Nat) : Int) * 1000 := by
      intro n
      push_cast
      omega
    exact h now
  · have hexp : (now + 8 * msPerDay) / 1000 ≥ now / 1000 + 7 * 24 * 60 * 60 := by
      unfold msPerDay
      have h : ∀ n : Int, (n + 8 * (24 * 60 * 60 * 1000)) / 1000 ≥ n / 1000 + 7 * 24 * 60 * 60 := by
        intro n
        omega
      exact h now
    simp only [generateTokens, jwtSign, jwtVerify, ne_eq, not_true_eq_false, if_false,
      Option.map_some', hexp, if_true]

/-! ## Reconciliation: product references, payment status, coupon -/

/-- The callback of the map throws on a line item whose reference is not
well formed. -/
theorem orderItemDraft_error (d : Deps) (p : MetaProduct) (h : p.wellFormedRef d = false) :
    ∃ e, orderItemDraft d p = .error e := by
  unfold MetaProduct.wellFormedRef MetaProduct.productId at h
  unfold orderItemDraft
  cases hid : truthyString p.id with
  | some i =>
    simp only [hid] at h ⊢
    simp [h]
  | none =>
    simp only [hid] at h ⊢
    cases h2 : p._id with
    | none => exact ⟨_, rfl⟩
    | some i =>
      simp only [h2] at h ⊢
      simp [h]

/-- The callback of the map returns the draft of a line item whose reference
is well formed. -/
theorem orderItemDraft_ok (d : Deps) (p : MetaProduct) (h : p.wellFormedRef d = true) :
    orderItemDraft d p
      = .ok { product := p.productId.getD "", quantity := p.quantity, price := p.price } := by
  unfold MetaProduct.wellFormedRef at h
  unfold orderItemDraft MetaProduct.productId at *
  cases hid : truthyString p.id with
  | some i =>
    simp only [hid] at h ⊢
    simp [h]
  | none =>
    simp only [hid] at h ⊢
    cases h2 : p._id with
    | none =>
      simp only [h2] at h
      cases h
    | some i =>
      simp only [h2] at h ⊢
      simp [h]

/-- The map aborts when some line item has a reference that is not well
formed. -/
theorem orderItemDrafts_error (d : Deps) (ps : List MetaProduct)
    (h : ∃ p ∈ ps, p.wellFormedRef d = false) :
    ∃ e, orderItemDrafts d ps = .error e := by
  induction ps with
  | nil =>
    obtain ⟨p, hp, _⟩ := h
    cases hp
  | cons q rest ih =>
    unfold orderItemDrafts
    cases hq : orderItemDraft d q with
    | error e => exact ⟨e, rfl⟩
    | ok item =>
      have hrest : ∃ p ∈ rest, p.wellFormedRef d = false := by
        obtain ⟨p, hp, hbad⟩ := h
        rcases List.mem_cons.mp hp with hpq | hpr
        · subst hpq
          obtain ⟨e, he⟩ := orderItemDraft_error d p hbad
          rw [he] at hq
          cases hq
        · exact ⟨p, hpr, hbad⟩
      obtain ⟨e, he⟩ := ih hrest
      exact ⟨e, by simp only [he]⟩

/-- C12. When the processor holds the session, its metadata line items decode,
at least one of them has a product reference that is not a well-formed object
identifier, and no order exists yet for the session, checkoutSuccess fails
(it answers 500) and creates no order: the order store is unchanged. -/
theorem checkoutSuccess_invalid_reference (d : Deps) (w : World) (now : Instant)
    (newId : ObjectId) (s : String) (session : StripeSession) (ps : List MetaProduct)
    (hfind : w.stripeSessions.find? (fun x => x.id == s) = some session)
    (hprod : session.metadata.products = some ps)
    (hbad : ∃ p ∈ ps, p.wellFormedRef d = false)
    (hord : Order.findOneBySession w.orders s = none) :
    (checkoutSuccess d w now newId s).1.status = 500 ∧
      (checkoutSuccess d w now newId s).2.orders = w.orders := by
  obtain ⟨e, he⟩ := orderItemDrafts_error d ps hbad
  simp [checkoutSuccess, hfind, hprod, hord, he]

set_option maxRecDepth 100000 in
/-- C12 at a concrete input: the paid session whose only line item carries no
product identifier. -/
theorem checkoutSuccess_invalid_reference_witness :
    (checkoutSuccess exampleDeps worldBadSession 1000 mugId "cs_test_bad").1.status = 500 ∧
      (checkoutSuccess exampleDeps worldBadSession 1000 mugId "cs_test_bad").2.orders
        = worldBadSession.orders :=
  checkoutSuccess_invalid_reference exampleDeps worldBadSession 1000 mugId "cs_test_bad"
    { id := "cs_test_bad", payment_status := "paid", amount_total := some (F64.ofInt 1000),
      metadata :=
        { userId := aliceId, coupon := none, couponCode := none,
          products := some [{ id := none, _id := none, quantity := some (F64.ofInt 1),
                              price := some (F64.ofInt 10) }] },
      line_items := [], discounts := [] }
    [{ id := none, _id := none, quantity := some (F64.ofInt 1), price := some (F64.ofInt 10) }]
    (by decide) rfl ⟨_, List.mem_singleton.mpr rfl, by decide⟩ (by decide)

set_option maxRecDepth 100000 in
/-- C20 (code defect). Alice opens a checkout session for the cart of the spec
and does not pay: the session held by the processor has payment_status
"unpaid".  checkoutSuccess for that session answers 200 "Payment successful,
order created" and adds an order for it to the order store: the payment status
only guards the coupon update. -/
theorem checkoutSuccess_creates_order_for_unpaid_session :
    worldUnpaid.stripeSessions.map (fun s => (s.id, s.payment_status))
        = [("cs_test_1", "unpaid")] ∧
      worldUnpaid.orders = [] ∧
      (checkoutSuccess exampleDeps worldUnpaid 1000 "64b0c0ffee00000000000aaa" "cs_test_1").1
        = { status := 200,
            body := .orderCreated
              "Payment successful, order created, and coupon deactivated if used."
              "64b0c0ffee00000000000aaa" } ∧
      (checkoutSuccess exampleDeps worldUnpaid 1000 "64b0c0ffee00000000000aaa"
          "cs_test_1").2.orders.map (fun o => (o.stripeSessionId, o.user, o.totalAmount))
        = [("cs_test_1", aliceId, F64.ofInt 25)] := by
  decide

set_option maxRecDepth 100000 in
/-- C13 (code defect). Alice pays a session opened with her coupon GIFTabc123:
the session is "paid" and its metadata records the code under the key coupon
(there is no key couponCode).  checkoutSuccess creates the order, but the
coupon GIFTabc123 of Alice is still active afterwards: the update filters on
metadata.couponCode, which createCheckoutSession never writes. -/
theorem checkoutSuccess_leaves_used_coupon_active :
    worldCouponPaid.stripeSessions.map
        (fun s => (s.payment_status, s.metadata.coupon, s.metadata.couponCode, s.metadata.userId))
      = [("paid", some "GIFTabc123", none, aliceId)] ∧
      (checkoutSuccess exampleDeps worldCouponPaid 1000 "64b0c0ffee00000000000aaa"
          "cs_test_1").1.status = 200 ∧
      (checkoutSuccess exampleDeps worldCouponPaid 1000 "64b0c0ffee00000000000aaa"
          "cs_test_1").2.coupons = aliceCoupons ∧
      (Coupon.findOneActive
          (checkoutSuccess exampleDeps worldCouponPaid 1000 "64b0c0ffee00000000000aaa"
            "cs_test_1").2.coupons "GIFTabc123" aliceId).map (fun c => c.isActive)
        = some true := by
  decide

/-! ## Access tokens -/

set_option maxRecDepth 100000 in
/-- C16 (code defect). The access token of generateTokens expires 900 seconds
after issuance, but the one the refresh flow issues carries no expiry at all
(jwt.sign is called without expiresIn): refreshing at instant 5000 with the
refresh token of Alice answers 200 and sets an accessToken signed with the
access secret for her user id with no exp claim, which still verifies at any
later instant.  The flow sets no other cookie and leaves every store, the
cached refresh token record included, unchanged. -/
theorem refreshToken_issues_access_token_without_expiry :
    (generateTokens exampleDeps aliceId 5000).1
        = .jwt { userId := some aliceId, secret := "access-secret", iat := 5,
                 exp := some (5 + 900) } ∧
      refreshToken exampleDeps worldAfterSignup 5000 (some aliceRefreshToken)
        = ({ status := 200, body := .message "Refresh token successful",
             cookies :=
               [{ name := "accessToken",
                  value := .jwt { userId := some aliceId, secret := "access-secret", iat := 5,
                                  exp := none },
                  maxAge := 900000 }] },
           worldAfterSignup) ∧
      (jwtVerify (.jwt { userId := some aliceId, secret := "access-secret", iat := 5, exp := none })
          exampleDeps.accessSecret 4102444800000).toOption
        = some { userId := some aliceId, secret := "access-secret", iat := 5, exp := none } := by
  decide

/-! ## The cart -/

/-- With a product identifier, the handler keeps exactly the items whose
identifier differs, in their order. -/
theorem removeAllFromCart_with_productId (w : World) (user : SessionUser) (id : String)
    (hid : id ≠ "") :
    (removeAllFromCart w user (some id)).1
      = { status := 200, body := .cartItems (user.cartItems.filter (fun item => item.id != id)) } := by
  have ht : truthyString (some id) = some id := by
    unfold truthyString
    split
    · rename_i h
      injection h with h
      exact absurd h hid
    · rfl
  simp only [removeAllFromCart, ht]

set_option maxRecDepth 100000 in
/-- C19 (code defect). Alice has two items in her cart.  removeAllFromCart
without a productId answers 200 with both items still in cartItems and saves
nothing: the handler empties user.cartItem, not user.cartItems.  With the
identifier of the first item it does remove that item only, and saves and
returns the cart that keeps the second. -/
theorem removeAllFromCart_without_productId_keeps_items :
    removeAllFromCart worldWithCart aliceWithCart none
        = ({ status := 200, body := .cartItems [cartItemA, cartItemB] }, worldWithCart) ∧
      removeAllFromCart worldWithCart aliceWithCart (some "64b0c0ffee0000000000ca01")
        = ({ status := 200, body := .cartItems [cartItemB] },
           { worldWithCart with users := [{ alice with cartItems := [cartItemB] }] }) := by
  decide

/-! ## Logout twice -/

set_option maxRecDepth 100000 in
/-- C18, the claim as stated fails. A request whose refreshToken cookie is not
a valid token is answered 401 "Invalid refresh token" by logout, the first time
and the second time; no cookie is cleared. -/
theorem logout_invalid_cookie_is_401 :
    logout exampleDeps worldAfterSignup 1000 (some (.garbage "not-a-token"))
        = ({ status := 401, body := .message "Invalid refresh token" }, worldAfterSignup) ∧
      (logout exampleDeps
          (logout exampleDeps worldAfterSignup 1000 (some (.garbage "not-a-token"))).2 2000
          (some (.garbage "not-a-token"))).1.status ≠ 200 := by
  decide

/-- Deleting a key twice is deleting it once. -/
theorem Cache.del_del (c : Cache) (key : String) : (c.del key).del key = c.del key := by
  unfold Cache.del
  rw [List.filter_filter]
  simp

/-- A deleted key is not read back. -/
theorem Cache.get_del (c : Cache) (key : String) (now : Instant) :
    (c.del key).get now key = none := by
  unfold Cache.del Cache.get
  rw [Option.map_eq_none', List.find?_eq_none]
  intro e he
  have hne := (List.mem_filter.mp he).2
  simp only [bne_iff_ne, ne_eq] at hne
  simp [hne]

/-- What logout does on a request it accepts. -/
theorem logout_accepted (d : Deps) (w : World) (now : Instant) (cookie : Option Token)
    (h : logoutAccepts d now cookie) :
    (logout d w now cookie = (logoutDone, w) ∧ truthyCookie cookie = none) ∨
      ∃ j uid, cookie = some (.jwt j) ∧ j.userId = some uid ∧
        logout d w now cookie = (logoutDone, { w with cache := w.cache.del (refreshKey uid) }) := by
  rcases h with hnone | ⟨j, uid, hc, hsec, hexp, huid, hne⟩
  · left
    refine ⟨?_, hnone⟩
    simp only [logout, hnone, logoutDone]
  · right
    refine ⟨j, uid, hc, huid, ?_⟩
    subst hc
    have hv := (jwtVerify_ok_iff (.jwt j) d.refreshSecret now j).mpr ⟨rfl, hsec, hexp⟩
    simp only [logout, truthyCookie_jwt, hv, huid, hne, if_false, logoutDone]

/-- C18, amended. For every state and every request that logout accepts at
both calls (the refreshToken cookie is absent, or verifies against the refresh
secret and names a user), calling logout twice in sequence with the same
request is not an error: both calls answer 200 "Logout successful" and clear
both cookies, the state after the second call equals the state after the
first, and the record refresh_token:userId of the user the cookie names is
absent. -/
theorem logout_twice (d : Deps) (w : World) (now1 now2 : Instant) (cookie : Option Token)
    (h1 : logoutAccepts d now1 cookie) (h2 : logoutAccepts d now2 cookie) :
    (logout d w now1 cookie).1 = logoutDone ∧
      (logout d (logout d w now1 cookie).2 now2 cookie).1 = logoutDone ∧
      (logout d (logout d w now1 cookie).2 now2 cookie).2 = (logout d w now1 cookie).2 ∧
      ∀ j uid t, cookie = some (.jwt j) → j.userId = some uid →
        (logout d w now1 cookie).2.cache.get t (refreshKey uid) = none := by
  rcases logout_accepted d w now1 cookie h1 with ⟨hfirst, hnone⟩ | ⟨j, uid, hc, huid, hfirst⟩
  · rcases logout_accepted d w now2 cookie h2 with ⟨hsecond, _⟩ | ⟨j, uid, hc, _, _⟩
    · refine ⟨by rw [hfirst], ?_, ?_, ?_⟩
      · rw [hfirst]
        show (logout d w now2 cookie).1 = logoutDone
        rw [hsecond]
      · rw [hfirst]
        show (logout d w now2 cookie).2 = w
        rw [hsecond]
      · intro j uid t hc _
        subst hc
        rw [truthyCookie_jwt] at hnone
        cases hnone
    · subst hc
      rw [truthyCookie_jwt] at hnone
      cases hnone
  · rcases logout_accepted d (logout d w now1 cookie).2 now2 cookie h2 with
      ⟨_, hnone⟩ | ⟨j', uid', hc', huid', hsecond⟩
    · subst hc
      rw [truthyCookie_jwt] at hnone
      cases hnone
    · subst hc
      injection hc' with hc'
      injection hc' with hc'
      subst hc'
      rw [huid] at huid'
      injection huid' with huid'
      subst huid'
      refine ⟨by rw [hfirst], by rw [hsecond], ?_, ?_⟩
      · rw [hsecond, hfirst]
        simp only [Cache.del_del]
      · rw [hfirst]
        intro j2 uid2 t hc2 huid2
        injection hc2 with hc2
        injection hc2 with hc2
        subst hc2
        rw [huid] at huid2
        injection huid2 with huid2
        subst huid2
        exact Cache.get_del _ _ _

set_option maxRecDepth 100000 in
/-- C18 at a concrete input: Alice logs out twice with the refresh token she
was issued at signup. -/
theorem logout_twice_witness :
    logoutAccepts exampleDeps 1000 (some aliceRefreshToken) ∧
      logoutAccepts exampleDeps 2000 (some aliceRefreshToken) ∧
      ((logout exampleDeps worldAfterSignup 1000 (some aliceRefreshToken)).1 = logoutDone ∧
        (logout exampleDeps (logout exampleDeps worldAfterSignup 1000 (some aliceRefreshToken)).2
          2000 (some aliceRefreshToken)).1 = logoutDone ∧
        (logout exampleDeps (logout exampleDeps worldAfterSignup 1000 (some aliceRefreshToken)).2
          2000 (some aliceRefreshToken)).2
          = (logout exampleDeps worldAfterSignup 1000 (some aliceRefreshToken)).2 ∧
        ∀ j uid t, some aliceRefreshToken = some (.jwt j) → j.userId = some uid →
          (logout exampleDeps worldAfterSignup 1000 (some aliceRefreshToken)).2.cache.get t
            (refreshKey uid) = none) :=
  have h1 : logoutAccepts exampleDeps 1000 (some aliceRefreshToken) :=
    Or.inr ⟨{ userId := some aliceId, secret := "refresh-secret", iat := 0, exp := some 604800 },
      aliceId, rfl, rfl, by simp [Jwt.notExpiredAt], rfl, by decide⟩
  have h2 : logoutAccepts exampleDeps 2000 (some aliceRefreshToken) :=
    Or.inr ⟨{ userId := some aliceId, secret := "refresh-secret", iat := 0, exp := some 604800 },
      aliceId, rfl, rfl, by simp [Jwt.notExpiredAt], rfl, by decide⟩
  ⟨h1, h2, logout_twice exampleDeps worldAfterSignup 1000 2000 (some aliceRefreshToken) h1 h2⟩

/-! ## The reward coupon -/

/-- The coupon collection after a checkout session was created. -/
theorem createCheckoutSession_success (w : World) (now : Instant) (user : SessionUser)
    (products : Option (List CartProduct)) (couponCode : Option String)
    (replies : ProcessorReplies) (newCode : String)
    (hs : (createCheckoutSession w now user products couponCode replies newCode).1.status = 200) :
    ∃ ps, products = some ps ∧
      (createCheckoutSession w now user products couponCode replies newCode).2.coupons
        = if F64.ge (checkoutTotal w.coupons user._id ps couponCode) (F64.ofInt 20000) then
            match Coupon.findOneByUser w.coupons user._id with
            | none => createNewCoupon w.coupons user._id newCode now
            | some _ => w.coupons
          else w.coupons := by
  cases products with
  | none => simp [createCheckoutSession] at hs
  | some l =>
    cases l with
    | nil => simp [createCheckoutSession] at hs
    | cons p ps =>
      refine ⟨p :: ps, rfl, ?_⟩
      unfold createCheckoutSession at hs ⊢
      simp only at hs ⊢
      cases hc : checkoutCoupon w.coupons user._id couponCode with
      | none =>
        simp only [hc] at hs ⊢
        cases hsess : replies.session with
        | error e => simp [hsess] at hs
        | ok r =>
          obtain ⟨sid, amt⟩ := r
          simp only [checkoutTotal, hc]
      | some c =>
        simp only [hc] at hs ⊢
        cases hrc : replies.coupon with
        | error e => simp [hrc] at hs
        | ok id =>
          simp only [hrc] at hs ⊢
          cases hsess : replies.session with
          | error e => simp [hsess] at hs
          | ok r =>
            obtain ⟨sid, amt⟩ := r
            simp only [checkoutTotal, hc]

/-- A user without coupon record has no coupon counted. -/
theorem couponsOfUser_eq_zero (coupons : List Coupon) (userId : ObjectId)
    (h : Coupon.findOneByUser coupons userId = none) : couponsOfUser coupons userId = 0 := by
  unfold Coupon.findOneByUser at h
  unfold couponsOfUser
  rw [List.length_eq_zero, List.filter_eq_nil_iff]
  intro c hc
  exact List.find?_eq_none.mp h c hc

/-- Minting a reward coupon for a user without coupon record leaves every user
with at most one record who had at most one. -/
theorem couponsOfUser_reward (coupons : List Coupon) (userId : ObjectId) (code : String)
    (now : Instant) (h : Coupon.findOneByUser coupons userId = none) (v : ObjectId)
    (hv : couponsOfUser coupons v ≤ 1) :
    couponsOfUser (coupons ++ [rewardCoupon userId code now]) v ≤ 1 := by
  have hzero := couponsOfUser_eq_zero coupons userId h
  unfold couponsOfUser at hv hzero ⊢
  rw [List.filter_append, List.length_append]
  by_cases huv : userId = v
  · subst huv
    rw [hzero]
    simp [List.filter, rewardCoupon]
  · have hb : (userId == v) = false := by simpa using huv
    have hnil : List.filter (fun c => c.userId == v) [rewardCoupon userId code now] = [] := by
      simp [List.filter, rewardCoupon, hb]
    rw [hnil]
    simpa using hv

/-- C15. For every successful createCheckoutSession call by user u: either
the post-discount total is at least 20000 minor units and u has no coupon
record, and the coupon collection gains exactly one reward coupon (10%, expiring
30 days after now, owned by u); or one of the two conditions fails and the
coupon collection is unchanged.  Consequently a user with at most one coupon
record before the call has at most one after it. -/
theorem createCheckoutSession_reward_coupon (w : World) (now : Instant) (user : SessionUser)
    (products : Option (List CartProduct)) (couponCode : Option String)
    (replies : ProcessorReplies) (newCode : String)
    (hs : (createCheckoutSession w now user products couponCode replies newCode).1.status = 200) :
    ∃ ps, products = some ps ∧
      ((F64.ge (checkoutTotal w.coupons user._id ps couponCode) (F64.ofInt 20000) = true ∧
          Coupon.findOneByUser w.coupons user._id = none ∧
          (createCheckoutSession w now user products couponCode replies newCode).2.coupons
            = w.coupons ++ [{ code := newCode, discountPercentage := F64.ofInt 10,
                              expirationDate := now + 30 * 24 * 60 * 60 * 1000,
                              isActive := true, userId := user._id }]) ∨
        ((F64.ge (checkoutTotal w.coupons user._id ps couponCode) (F64.ofInt 20000) = false ∨
            ∃ c, Coupon.findOneByUser w.coupons user._id = some c) ∧
          (createCheckoutSession w now user products couponCode replies newCode).2.coupons
            = w.coupons)) ∧
      ∀ v, couponsOfUser w.coupons v ≤ 1 →
        couponsOfUser
          (createCheckoutSession w now user products couponCode replies newCode).2.coupons v
          ≤ 1 := by
  obtain ⟨ps, hps, hcoupons⟩ :=
    createCheckoutSession_success w now user products couponCode replies newCode hs
  refine ⟨ps, hps, ?_⟩
  rw [hcoupons]
  by_cases hge : F64.ge (checkoutTotal w.coupons user._id ps couponCode) (F64.ofInt 20000) = true
  · rw [if_pos hge]
    cases hfind : Coupon.findOneByUser w.coupons user._id with
    | some c => exact ⟨Or.inr ⟨Or.inr ⟨c, rfl⟩, rfl⟩, fun v hv => hv⟩
    | none =>
      refine ⟨Or.inl ⟨hge, rfl, rfl⟩, ?_⟩
      intro v hv
      exact couponsOfUser_reward w.coupons user._id newCode now hfind v hv
  · rw [if_neg hge]
    exact ⟨Or.inr ⟨Or.inl (Bool.eq_false_iff.mpr hge), rfl⟩, fun v hv => hv⟩

set_option maxRecDepth 100000 in
/-- C15 at a concrete input: Alice, who has no coupon record, checks out a cart
of 250.00 without coupon. -/
theorem createCheckoutSession_reward_coupon_witness :
    (createCheckoutSession worldWithAlice 0 alice.withoutPassword (some bigCart) none
        acceptingReplies "GIFTnew001").1.status = 200 ∧
      ∃ ps, some bigCart = some ps ∧
        ((F64.ge (checkoutTotal worldWithAlice.coupons alice.withoutPassword._id ps none)
              (F64.ofInt 20000) = true ∧
            Coupon.findOneByUser worldWithAlice.coupons alice.withoutPassword._id = none ∧
            (createCheckoutSession worldWithAlice 0 alice.withoutPassword (some bigCart) none
                acceptingReplies "GIFTnew001").2.coupons
              = worldWithAlice.coupons ++
                  [{ code := "GIFTnew001", discountPercentage := F64.ofInt 10,
                     expirationDate := 0 + 30 * 24 * 60 * 60 * 1000,
                     isActive := true, userId := alice.withoutPassword._id }]) ∨
          ((F64.ge (checkoutTotal worldWithAlice.coupons alice.withoutPassword._id ps none)
                (F64.ofInt 20000) = false ∨
              ∃ c, Coupon.findOneByUser worldWithAlice.coupons alice.withoutPassword._id = some c) ∧
            (createCheckoutSession worldWithAlice 0 alice.withoutPassword (some bigCart) none
                acceptingReplies "GIFTnew001").2.coupons
              = worldWithAlice.coupons)) ∧
        ∀ v, couponsOfUser worldWithAlice.coupons v ≤ 1 →
          couponsOfUser
            (createCheckoutSession worldWithAlice 0 alice.withoutPassword (some bigCart) none
              acceptingReplies "GIFTnew001").2.coupons v
            ≤ 1 :=
  ⟨by decide,
    createCheckoutSession_reward_coupon worldWithAlice 0 alice.withoutPassword (some bigCart)
      none acceptingReplies "GIFTnew001" (by decide)⟩

set_option maxRecDepth 100000 in
/-- In the example the reward coupon is minted: the total is 25000. -/
theorem createCheckoutSession_bigCart_mints :
    checkoutTotal worldWithAlice.coupons aliceId bigCart none = F64.ofInt 25000 ∧
      (createCheckoutSession worldWithAlice 0 alice.withoutPassword (some bigCart) none
          acceptingReplies "GIFTnew001").2.coupons
        = [rewardCoupon aliceId "GIFTnew001" 0] := by
  decide

/-! ## The order created -/

/-- The map of `checkoutSuccess` succeeds on line items whose references are
all well formed. -/
theorem orderItemDrafts_ok (d : Deps) (ps : List MetaProduct)
    (h : ∀ p ∈ ps, p.wellFormedRef d = true) :
    orderItemDrafts d ps = .ok (ps.map MetaProduct.draft) := by
  induction ps with
  | nil => rfl
  | cons q rest ih =>
    have hq := orderItemDraft_ok d q (h q (List.mem_cons_self q rest))
    have hrest := ih (fun p hp => h p (List.mem_cons_of_mem q hp))
    unfold orderItemDrafts
    rw [hq, hrest]
    rfl

/-- The schema accepts the drafts of line items whose prices are all present
and at least 0, and keeps one line per item. -/
theorem validateOrderItems_ok (ps : List MetaProduct)
    (h : ps.all MetaProduct.priceAccepted = true) :
    validateOrderItems (ps.map MetaProduct.draft) = .ok (ps.map MetaProduct.orderItem) := by
  induction ps with
  | nil => rfl
  | cons q rest ih =>
    rw [List.all_cons, Bool.and_eq_true] at h
    have hrest := ih h.2
    have hq := h.1
    unfold MetaProduct.priceAccepted at hq
    rw [List.map_cons, List.map_cons]
    unfold validateOrderItems
    rw [hrest]
    cases hprice : q.price with
    | none =>
      rw [hprice] at hq
      cases hq
    | some price =>
      rw [hprice] at hq
      have hge : F64.ge price F64.zero = true := hq
      simp [validateOrderItem, MetaProduct.draft, MetaProduct.orderItem, hprice, hge]

/-- The schema rejects the drafts when some price is missing or negative. -/
theorem validateOrderItems_error (ps : List MetaProduct)
    (h : ps.all MetaProduct.priceAccepted = false) :
    ∃ e, validateOrderItems (ps.map MetaProduct.draft) = .error e := by
  induction ps with
  | nil => simp at h
  | cons q rest ih =>
    rw [List.map_cons]
    unfold validateOrderItems
    cases hq : validateOrderItem (MetaProduct.draft q) with
    | error e => exact ⟨e, rfl⟩
    | ok item =>
      have hqa : q.priceAccepted = true := by
        unfold validateOrderItem MetaProduct.draft at hq
        unfold MetaProduct.priceAccepted
        cases hprice : q.price with
        | none =>
          rw [hprice] at hq
          cases hq
        | some price =>
          rw [hprice] at hq
          simp only at hq ⊢
          by_cases hge : F64.ge price F64.zero = true
          · exact hge
          · rw [if_neg hge] at hq
            cases hq
      have hrest : rest.all MetaProduct.priceAccepted = false := by
        rw [List.all_cons, hqa, Bool.true_and] at h
        exact h
      obtain ⟨e, he⟩ := ih hrest
      exact ⟨e, by simp only [he]⟩

/-- No order of a session means the unique index has nothing to object. -/
theorem Order.any_session_false (orders : List Order) (s : String)
    (h : Order.findOneBySession orders s = none) :
    orders.any (fun o => o.stripeSessionId == s) = false := by
  unfold Order.findOneBySession at h
  rw [List.any_eq_false]
  intro o ho
  have := List.find?_eq_none.mp h o ho
  simpa using this

/-- C14. When the processor holds the session, its line items decode with
well-formed product references only, and no order exists yet for the session,
then either the order schema accepts the record and checkoutSuccess answers 200
and appends exactly one order, whose totalAmount is amount_total / 100 as
reported by the processor, whose stripeSessionId is the presented handle, whose
user is metadata.userId, and whose lines are the lines of the decoded items in
the same order (product reference, quantity, price); or the schema rejects the
record, the handler answers 500 and the order store is unchanged. -/
theorem checkoutSuccess_order (d : Deps) (w : World) (now : Instant) (newId : ObjectId)
    (s : String) (session : StripeSession) (ps : List MetaProduct)
    (hfind : w.stripeSessions.find? (fun x => x.id == s) = some session)
    (hprod : session.metadata.products = some ps)
    (hord : Order.findOneBySession w.orders s = none)
    (hwf : ∀ p ∈ ps, p.wellFormedRef d = true) :
    (session.schemaAccepts d = true ∧
        (checkoutSuccess d w now newId s).1
          = { status := 200,
              body := .orderCreated
                "Payment successful, order created, and coupon deactivated if used." newId } ∧
        (checkoutSuccess d w now newId s).2.orders
          = w.orders ++
              [{ _id := newId, user := session.metadata.userId,
                 products := ps.map MetaProduct.orderItem,
                 totalAmount := F64.div (session.amount_total.getD F64.zero) (F64.ofInt 100),
                 stripeSessionId := s, createdAt := now }]) ∨
      (session.schemaAccepts d = false ∧
        (checkoutSuccess d w now newId s).1.status = 500 ∧
        (checkoutSuccess d w now newId s).2.orders = w.orders) := by
  have hdrafts := orderItemDrafts_ok d ps hwf
  have hany := Order.any_session_false w.orders s hord
  unfold StripeSession.schemaAccepts
  rw [hprod, Option.getD_some]
  by_cases hu : d.objectIdIsValid session.metadata.userId = true
  · cases hp : ps.all MetaProduct.priceAccepted with
    | false =>
      right
      obtain ⟨e, he⟩ := validateOrderItems_error ps hp
      simp [checkoutSuccess, hfind, hprod, hord, hdrafts, Order.create, hu, he]
    | true =>
      have hitems := validateOrderItems_ok ps hp
      by_cases ht : F64.ge (F64.div (session.amount_total.getD F64.zero) (F64.ofInt 100))
          F64.zero = true
      · left
        simp [checkoutSuccess, hfind, hprod, hord, hdrafts, Order.create, hu, hitems, ht, hany]
      · right
        simp [checkoutSuccess, hfind, hprod, hord, hdrafts, Order.create, hu, hitems, ht]
  · right
    simp [checkoutSuccess, hfind, hprod, hord, hdrafts, Order.create, hu]

set_option maxRecDepth 100000 in
/-- C14 at a concrete input: the paid session for one mug at 10, for which the
processor reports an amount_total of 1000. -/
theorem checkoutSuccess_order_witness :
    worldGoodSession.stripeSessions.find? (fun x => x.id == "cs_test_good") = some goodSession ∧
      goodSession.metadata.products = some [goodLineItem] ∧
      Order.findOneBySession worldGoodSession.orders "cs_test_good" = none ∧
      (∀ p ∈ [goodLineItem], p.wellFormedRef exampleDeps = true) ∧
      ((goodSession.schemaAccepts exampleDeps = true ∧
          (checkoutSuccess exampleDeps worldGoodSession 1000 "64b0c0ffee00000000000aaa"
              "cs_test_good").1
            = { status := 200,
                body := .orderCreated
                  "Payment successful, order created, and coupon deactivated if used."
                  "64b0c0ffee00000000000aaa" } ∧
          (checkoutSuccess exampleDeps worldGoodSession 1000 "64b0c0ffee00000000000aaa"
              "cs_test_good").2.orders
            = worldGoodSession.orders ++
                [{ _id := "64b0c0ffee00000000000aaa", user := goodSession.metadata.userId,
                   products := [goodLineItem].map MetaProduct.orderItem,
                   totalAmount :=
                     F64.div (goodSession.amount_total.getD F64.zero) (F64.ofInt 100),
                   stripeSessionId := "cs_test_good", createdAt := 1000 }]) ∨
        (goodSession.schemaAccepts exampleDeps = false ∧
          (checkoutSuccess exampleDeps worldGoodSession 1000 "64b0c0ffee00000000000aaa"
              "cs_test_good").1.status = 500 ∧
          (checkoutSuccess exampleDeps worldGoodSession 1000 "64b0c0ffee00000000000aaa"
              "cs_test_good").2.orders = worldGoodSession.orders)) :=
  ⟨by decide, rfl, by decide, by decide,
    checkoutSuccess_order exampleDeps worldGoodSession 1000 "64b0c0ffee00000000000aaa"
      "cs_test_good" goodSession [goodLineItem] (by decide) rfl (by decide) (by decide)⟩

set_option maxRecDepth 100000 in
/-- In the example the schema accepts the record and the order is the one line
of one mug at 10, with total 1000 / 100 = 10. -/
theorem checkoutSuccess_goodSession_order :
    goodSession.schemaAccepts exampleDeps = true ∧
      (checkoutSuccess exampleDeps worldGoodSession 1000 "64b0c0ffee00000000000aaa"
          "cs_test_good").2.orders
        = [{ _id := "64b0c0ffee00000000000aaa", user := aliceId,
             products := [{ product := mugId, quantity := F64.ofInt 1, price := F64.ofInt 10 }],
             totalAmount := F64.ofInt 10, stripeSessionId := "cs_test_good",
             createdAt := 1000 }] := by
  decide

/-! ## Featured products -/

/-- Toggling the first record of an identifier, when the records before it
have other identifiers. -/
theorem Product.toggleFirst_append (pre post : List Product) (p : Product)
    (hpre : ∀ q ∈ pre, q._id ≠ p._id) :
    Product.toggleFirst (pre ++ p :: post) p._id
      = pre ++ { p with isfeatured := !p.isfeatured } :: post := by
  induction pre with
  | nil => simp [Product.toggleFirst]
  | cons q rest ih =>
    have hq : q._id ≠ p._id := hpre q (List.mem_cons_self q rest)
    have hrest := ih (fun r hr => hpre r (List.mem_cons_of_mem q hr))
    show Product.toggleFirst (q :: (rest ++ p :: post)) p._id = q :: (rest ++ _ :: post)
    unfold Product.toggleFirst
    rw [if_neg hq, hrest]

/-- A record set without expiry is read back at any instant. -/
theorem Cache.get_set_none (c : Cache) (key : String) (v : CacheValue) (now later : Instant) :
    (c.set key v none now).get later key = some v := by
  simp [Cache.set, Cache.get, List.find?, CacheEntry.live]

/-- C17. When toggleFeaturedProduct succeeds for an identifier, the product
collection held a record p of that identifier; afterwards the collection is the
same list with the featured flag of p negated and every other product
unchanged, the response carries the updated product, the cache entry
featured_products is the serialization of exactly the products whose flag is
true in the updated collection, and a following getFeaturedProducts answers 200
with exactly these products. -/
theorem toggleFeaturedProduct_spec (d : Deps) (w : World) (now : Instant) (id : String)
    (hs : (toggleFeaturedProduct d w now id).1.status = 200) :
    ∃ pre p post, w.products = pre ++ p :: post ∧ p._id = id ∧ (∀ q ∈ pre, q._id ≠ id) ∧
      (toggleFeaturedProduct d w now id).1.body
        = .product { p with isfeatured := !p.isfeatured } ∧
      (toggleFeaturedProduct d w now id).2.products
        = pre ++ { p with isfeatured := !p.isfeatured } :: post ∧
      ∀ later : Instant,
        (toggleFeaturedProduct d w now id).2.cache.get later "featured_products"
          = some (.json ((toggleFeaturedProduct d w now id).2.products.filter
              (fun q => q.isfeatured))) ∧
        getFeaturedProducts (toggleFeaturedProduct d w now id).2 later
          = ({ status := 200,
               body := .products ((toggleFeaturedProduct d w now id).2.products.filter
                 (fun q => q.isfeatured)) },
             (toggleFeaturedProduct d w now id).2) := by
  unfold toggleFeaturedProduct at hs ⊢
  unfold Product.findById at hs ⊢
  by_cases hvalid : d.objectIdIsValid id = true
  · simp only [hvalid, if_true] at hs ⊢
    cases hfind : w.products.find? (fun p => p._id == id) with
    | none =>
      rw [hfind] at hs
      simp at hs
    | some p =>
      rw [hfind] at hs
      simp only at hs ⊢
      obtain ⟨hp, pre, post, hsplit, hpre⟩ := List.find?_eq_some.mp hfind
      have hpid : p._id = id := by simpa using hp
      have hpre' : ∀ q ∈ pre, q._id ≠ p._id := by
        intro q hq
        have := hpre q hq
        rw [hpid]
        simpa using this
      by_cases hv : Product.valid { p with isfeatured := !p.isfeatured } = true
      · simp only [hv, if_true] at hs ⊢
        have htoggle : Product.toggleFirst w.products p._id
            = pre ++ { p with isfeatured := !p.isfeatured } :: post := by
          rw [hsplit]
          exact Product.toggleFirst_append pre post p hpre'
        refine ⟨pre, p, post, hsplit, hpid, fun q hq => hpid ▸ hpre' q hq, rfl, htoggle, ?_⟩
        intro later
        have hget : (updateFeaturedProductsCache (Product.toggleFirst w.products p._id) w.cache
            now).get later "featured_products"
              = some (.json ((Product.toggleFirst w.products p._id).filter
                  (fun q => q.isfeatured))) := by
          unfold updateFeaturedProductsCache Product.findFeatured
          exact Cache.get_set_none _ _ _ _ _
        refine ⟨hget, ?_⟩
        unfold getFeaturedProducts
        simp only [hget]
      · simp only [hv, if_false] at hs
        simp at hs
  · simp only [hvalid, if_false] at hs
    simp at hs

set_option maxRecDepth 100000 in
/-- C17 at a concrete input: the mug, not featured, is toggled in a collection
whose other product is featured. -/
theorem toggleFeaturedProduct_spec_witness :
    (toggleFeaturedProduct exampleDeps worldWithProducts 0 mugId).1.status = 200 ∧
      ∃ pre p post, worldWithProducts.products = pre ++ p :: post ∧ p._id = mugId ∧
        (∀ q ∈ pre, q._id ≠ mugId) ∧
        (toggleFeaturedProduct exampleDeps worldWithProducts 0 mugId).1.body
          = .product { p with isfeatured := !p.isfeatured } ∧
        (toggleFeaturedProduct exampleDeps worldWithProducts 0 mugId).2.products
          = pre ++ { p with isfeatured := !p.isfeatured } :: post ∧
        ∀ later : Instant,
          (toggleFeaturedProduct exampleDeps worldWithProducts 0 mugId).2.cache.get later
              "featured_products"
            = some (.json ((toggleFeaturedProduct exampleDeps worldWithProducts 0
                mugId).2.products.filter (fun q => q.isfeatured))) ∧
          getFeaturedProducts (toggleFeaturedProduct exampleDeps worldWithProducts 0 mugId).2 later
            = ({ status := 200,
                 body := .products ((toggleFeaturedProduct exampleDeps worldWithProducts 0
                   mugId).2.products.filter (fun q => q.isfeatured)) },
               (toggleFeaturedProduct exampleDeps worldWithProducts 0 mugId).2) :=
  ⟨by decide, toggleFeaturedProduct_spec exampleDeps worldWithProducts 0 mugId (by decide)⟩

set_option maxRecDepth 100000 in
/-- In the example both products are featured after the toggle, and a second
toggle of the mug leaves the coaster alone in the cache. -/
theorem toggleFeaturedProduct_example :
    (getFeaturedProducts (toggleFeaturedProduct exampleDeps worldWithProducts 0 mugId).2 50).1.body
        = .products
            [{ _id := mugId, name := "Mug", description := "A mug for coffee",
               price := F64.ofInt 10, image := "mug.png", category := "kitchen",
               isfeatured := true },
             { _id := "64b0c0ffee00000000000456", name := "Coaster",
               description := "A coaster of cork", price := F64.ofInt 5, image := "coaster.png",
               category := "kitchen", isfeatured := true }] ∧
      (getFeaturedProducts
          (toggleFeaturedProduct exampleDeps
            (toggleFeaturedProduct exampleDeps worldWithProducts 0 mugId).2 100 mugId).2
          150).1.body
        = .products
            [{ _id := "64b0c0ffee00000000000456", name := "Coaster",
               description := "A coaster of cork", price := F64.ofInt 5, image := "coaster.png",
               category := "kitchen", isfeatured := true }] := by
  decide

/-! ## The daily series and the aggregation -/

/-- The join keeps the first row of every date of the range. -/
theorem joinSales_keeps_row (rows : List SalesRow) (dates : List Int) (date : Int)
    (r : SalesRow) (hdate : date ∈ dates)
    (hrow : rows.find? (fun item => item._id == date) = some r) :
    { date := date, sales := jsOrZero (some r.sales), revenue := jsOrZero (some r.revenue) }
      ∈ joinSales rows dates := by
  unfold joinSales
  rw [List.mem_map]
  refine ⟨date, hdate, ?_⟩
  simp only [hrow, Option.map_some']

set_option maxRecDepth 100000 in
/-- C21 (code defect), on a host in UTC. Two orders were created within the
range, on day 3 and on day 8 at 11:00, and endDate is day 8 at 12:00.  With
startDate one
millisecond after day 1 at 12:00 the aggregation has a row for day 3 and a row
for day 8, but the series steps from startDate by 24 hours and ends at day 7:
the row of day 8 is not in it, and the sales of the series add up to 1 for 2
orders in range.  With startDate exactly seven days before endDate the series
reaches day 8 and keeps both rows. -/
theorem getDailySalesData_drops_last_day :
    (weekOrders.filter
        (fun o => decide (weekStart + 1 ≤ o.createdAt) && decide (o.createdAt ≤ weekEnd))).length
      = 2 ∧
    aggregateDailySales weekOrders (weekStart + 1) weekEnd
      = [{ _id := 3, sales := F64.ofInt 1, revenue := F64.ofInt 10 },
         { _id := 8, sales := F64.ofInt 1, revenue := F64.ofInt 25 }] ∧
    seriesTriples (getDailySalesData utcZone weekOrders (weekStart + 1) weekEnd)
      = some [(1, F64.zero, F64.zero), (2, F64.zero, F64.zero),
              (3, F64.ofInt 1, F64.ofInt 10), (4, F64.zero, F64.zero),
              (5, F64.zero, F64.zero), (6, F64.zero, F64.zero), (7, F64.zero, F64.zero)] ∧
    seriesTriples (getDailySalesData utcZone weekOrders weekStart weekEnd)
      = some [(1, F64.zero, F64.zero), (2, F64.zero, F64.zero),
              (3, F64.ofInt 1, F64.ofInt 10), (4, F64.zero, F64.zero),
              (5, F64.zero, F64.zero), (6, F64.zero, F64.zero), (7, F64.zero, F64.zero),
              (8, F64.ofInt 1, F64.ofInt 25)] := by
  decide

end Ecommerce
